import Mathlib

/-!
Verification development for the dental-clinic appointment backend
(Django project, apps `citas` and `odontologos`).

Shallow embedding conventions:
* Database tables are Lean lists of records inside a `World` structure; a
  Django queryset filter becomes a `List.filter`/`List.any` over the list,
  in the textual order of the Python code.
* `DateField` values are `Fecha` (year/month/day); `TimeField` values are
  `Hora` (hour/minute, seconds are always zero in this schema).  Python
  compares dates and times lexicographically, which for valid values agrees
  with the `tToMinutes`/ordinal comparisons used here.
* The response strings "HH:MM" produced by `strftime` are represented by
  the minute-of-day number `tToMinutes`; `strftime("%H:%M")` is a strictly
  monotone injection from times to zero-padded strings, so ordering and
  set-membership of the strings coincide with those of the numbers.
* Datetimes (`timezone.now()`, `cancelada_en`, ...) are absolute minute
  counts (`Int`), or a `FechaHora` (date plus minute-of-day) where the code
  splits them with `.date()` / `.time()`.
* Fallible Python paths return `Except`: an uncaught exception
  (AttributeError from reading an attribute off a tuple, or a Django
  `ValidationError` escaping `full_clean`) is `Except.error`; an HTTP
  response, including 4xx ones, is an `Except.ok` carrying the status code.
* Django's `get_or_create` returns the pair `(instance, created)`; Python
  attribute access on such a pair is modelled by `ConfigValue` together
  with `configGetattrOpt` (direct access, `none` = AttributeError) and
  `configGetattrDefault` (`getattr(obj, name, default)`).
-/

/-- Appointment states, module constants of `citas/models.py`. -/
inductive Estado where
  | pendiente
  | confirmada
  | cancelada
  | realizada
  | mantenimiento
deriving DecidableEq, Repr

/-- Calendar date (Python `datetime.date`). -/
structure Fecha where
  year : Nat
  month : Nat
  day : Nat
deriving DecidableEq, Repr

/-- Time of day (Python `datetime.time`); the schema stores minute-aligned
times with zero seconds. -/
structure Hora where
  hour : Nat
  minute : Nat
deriving DecidableEq, Repr

/-- Embeds `tToMinutes` of `citas/models.py`: `t.hour * 60 + t.minute`. -/
def tToMinutes (t : Hora) : Nat := t.hour * 60 + t.minute

/-- Gregorian leap-year rule used by Python `datetime`. -/
def isLeap (y : Nat) : Bool := (y % 4 == 0 && y % 100 != 0) || y % 400 == 0

/-- Length of a month in the proleptic Gregorian calendar. -/
def monthLength (y m : Nat) : Nat :=
  if m = 2 then (if isLeap y then 29 else 28)
  else if m = 4 ∨ m = 6 ∨ m = 9 ∨ m = 11 then 30
  else 31

/-- Days in year `y` before the first day of month `m`. -/
def daysBeforeMonth (y m : Nat) : Nat :=
  (List.range (m - 1)).foldl (fun acc i => acc + monthLength y (i + 1)) 0

/-- Proleptic Gregorian ordinal of a date, as in Python
`date.toordinal()` (0001-01-01 has ordinal 1). -/
def dateOrdinal (f : Fecha) : Nat :=
  365 * (f.year - 1) + (f.year - 1) / 4 - (f.year - 1) / 100 + (f.year - 1) / 400
    + daysBeforeMonth f.year f.month + f.day

/-- Python `date.weekday()`: Monday = 0 ... Sunday = 6. -/
def weekday (f : Fecha) : Nat := (dateOrdinal f + 6) % 7

/-- Lexicographic date comparison, as Python compares `date` objects. -/
def fechaLe (a b : Fecha) : Bool :=
  a.year < b.year ||
    (a.year == b.year && (a.month < b.month || (a.month == b.month && a.day ≤ b.day)))

/-- Strict lexicographic date comparison. -/
def fechaLt (a b : Fecha) : Bool :=
  a.year < b.year ||
    (a.year == b.year && (a.month < b.month || (a.month == b.month && a.day < b.day)))

/-- Python `cur + timedelta(days=1)` on a date. -/
def nextDate (f : Fecha) : Fecha :=
  if f.day < monthLength f.year f.month then ⟨f.year, f.month, f.day + 1⟩
  else if f.month < 12 then ⟨f.year, f.month + 1, 1⟩
  else ⟨f.year + 1, 1, 1⟩

/-- Absolute minute count of a naive datetime `datetime.combine(fecha, hora)`. -/
def absMinutes (f : Fecha) (t : Hora) : Int :=
  (dateOrdinal f : Int) * 1440 + (tToMinutes t : Int)

/-- Datetime split into calendar date and minute of day, the shape in which
`dtFrom.date()` and `dtFrom.time()` are consumed. -/
structure FechaHora where
  fecha : Fecha
  minutos : Nat
deriving DecidableEq, Repr

/-- Row of `pacientes.Paciente` (only the columns this core reads). -/
structure Paciente where
  idPaciente : Nat
  idUsuario : Nat
deriving DecidableEq, Repr

/-- Row of `odontologos.Odontologo` (only the columns this core reads). -/
structure Odontologo where
  idOdontologo : Nat
  idUsuario : Nat
deriving DecidableEq, Repr

/-- Row of `citas.Consultorio`. -/
structure Consultorio where
  idConsultorio : Nat
  estado : Bool
deriving DecidableEq, Repr

/-- Row of `odontologos.OdontologoHorario`. -/
structure OdontologoHorario where
  idHorario : Nat
  idOdontologo : Nat
  diaSemana : Nat
  horaInicio : Hora
  horaFin : Hora
  vigente : Bool
deriving DecidableEq, Repr

/-- Row of `odontologos.BloqueoDia`; `idOdontologo = none` is a global
block, and `motivo` is a nullable text column (`null=True, blank=True`). -/
structure BloqueoDia where
  idBloqueo : Nat
  idOdontologo : Option Nat
  fecha : Fecha
  recurrenteAnual : Bool
  motivo : Option String
  grupo : Nat
deriving DecidableEq, Repr

/-- Row of `citas.Cita`; `pk = none` is an unsaved instance (Django
`AutoField` not yet assigned). -/
structure Cita where
  pk : Option Nat
  idPaciente : Nat
  idOdontologo : Nat
  idConsultorio : Nat
  fecha : Fecha
  hora : Hora
  estado : Estado
  reprogramaciones : Nat
  canceladaEn : Option Int
  canceladaPorRol : Option Nat
  ausentismo : Bool
  reprogramadaEn : Option Int
  reprogramadaPorRol : Option Nat
  batchId : Option Nat
deriving DecidableEq, Repr

/-- Row of `citas.Configuracion` (the policy singleton); all the integer
policy fields, with their model defaults in `defaultConfiguracion`. -/
structure Configuracion where
  maxCitasActivas : Int
  horasConfirmarDesde : Int
  horasConfirmarHasta : Int
  horasAutoconfirmar : Int
  maxCitasDia : Int
  cooldownDias : Int
  maxReprogramaciones : Int
  minHorasAnticipacion : Int
deriving DecidableEq, Repr

/-- Field defaults of the `Configuracion` model. -/
def defaultConfiguracion : Configuracion :=
  { maxCitasActivas := 1, horasConfirmarDesde := 24, horasConfirmarHasta := 12,
    horasAutoconfirmar := 24, maxCitasDia := 1, cooldownDias := 3,
    maxReprogramaciones := 1, minHorasAnticipacion := 2 }

/-- Database state: one list per table, plus the optional singleton
configuration row (pk = 1). -/
structure World where
  pacientes : List Paciente
  odontologos : List Odontologo
  consultorios : List Consultorio
  horarios : List OdontologoHorario
  bloqueos : List BloqueoDia
  citas : List Cita
  configuracion : Option Configuracion
deriving DecidableEq, Repr

/-- Role constants of `citas/views.py`. -/
def ROL_SUPERADMIN : Nat := 1

/-- Role constant: patient. -/
def ROL_PACIENTE : Nat := 2

/-- Role constant: dentist. -/
def ROL_ODONTOLOGO : Nat := 3

/-- Role constant: clinic admin. -/
def ROL_ADMIN_CLIN : Nat := 4

/-! ## Sorted deduplication

Python's `sorted(set(xs))` on minute-of-day numbers is embedded as an
insertion sort that drops duplicates. -/

/-- Inserts `x` into an ascending duplicate-free list, keeping it so. -/
def insSorted (x : Nat) : List Nat → List Nat
  | [] => [x]
  | y :: ys =>
    if x < y then x :: y :: ys
    else if x = y then y :: ys
    else y :: insSorted x ys

/-- Embeds Python `sorted(set(l))` for minute-of-day values. -/
def sortedDedup (l : List Nat) : List Nat := l.foldr insSorted []

theorem mem_insSorted (x z : Nat) (l : List Nat) : z ∈ insSorted x l ↔ z = x ∨ z ∈ l := by
  induction l with
  | nil => simp [insSorted]
  | cons y ys ih =>
    by_cases h1 : x < y
    · simp [insSorted, h1]
    · by_cases h2 : x = y
      · subst h2
        simp [insSorted, h1]
      · simp [insSorted, h1, h2, ih]
        tauto

theorem pairwise_insSorted (x : Nat) (l : List Nat) (h : l.Pairwise (· < ·)) :
    (insSorted x l).Pairwise (· < ·) := by
  induction l with
  | nil => simp [insSorted]
  | cons y ys ih =>
    rcases List.pairwise_cons.mp h with ⟨hy, hys⟩
    by_cases h1 : x < y
    · rw [insSorted, if_pos h1]
      refine List.pairwise_cons.mpr ⟨?_, h⟩
      intro b hb
      rcases List.mem_cons.mp hb with rfl | hb2
      · exact h1
      · exact lt_trans h1 (hy b hb2)
    · by_cases h2 : x = y
      · rw [insSorted, if_neg h1, if_pos h2]; exact h
      · rw [insSorted, if_neg h1, if_neg h2]
        refine List.pairwise_cons.mpr ⟨?_, ih hys⟩
        intro b hb
        rcases (mem_insSorted x b ys).mp hb with rfl | hb2
        · omega
        · exact hy b hb2

theorem pairwise_sortedDedup (l : List Nat) : (sortedDedup l).Pairwise (· < ·) := by
  induction l with
  | nil => simp [sortedDedup]
  | cons y ys ih => exact pairwise_insSorted y _ ih

theorem mem_sortedDedup (l : List Nat) (z : Nat) : z ∈ sortedDedup l ↔ z ∈ l := by
  induction l with
  | nil => simp [sortedDedup]
  | cons y ys ih =>
    simp only [sortedDedup, List.foldr] at *
    rw [mem_insSorted]
    simp [ih]

/-! ## Slot generation (`citas/views.py`) -/

/-- Loop body of `buildSlotsFromInterval`: starting at minute `cur`, emit a
slot every 60 minutes while the full hour fits before `stop`, skipping the
13:00 and 14:00 lunch hours. -/
def buildSlotsGo (stop cur : Nat) : List Nat :=
  if _h : cur + 60 ≤ stop then
    if cur / 60 = 13 ∨ cur / 60 = 14 then buildSlotsGo stop (cur + 60)
    else cur :: buildSlotsGo stop (cur + 60)
  else []
termination_by stop - cur
decreasing_by all_goals omega

/-- Embeds `buildSlotsFromInterval(start, end)` of `citas/views.py`; the
produced "HH:MM" strings are represented by their minute-of-day numbers. -/
def buildSlotsFromInterval (start stop : Hora) : List Nat :=
  buildSlotsGo (tToMinutes stop) (tToMinutes start)

theorem buildSlotsGo_mem (stop cur s : Nat) (h : s ∈ buildSlotsGo stop cur) :
    cur ≤ s ∧ s + 60 ≤ stop ∧ s / 60 ≠ 13 ∧ s / 60 ≠ 14 := by
  induction cur using buildSlotsGo.induct stop with
  | case1 cur hle hlunch ih =>
    rw [buildSlotsGo, dif_pos hle, if_pos hlunch] at h
    have := ih h
    omega
  | case2 cur hle hlunch ih =>
    rw [buildSlotsGo, dif_pos hle, if_neg hlunch] at h
    rcases List.mem_cons.mp h with rfl | h2
    · simp only [not_or] at hlunch
      omega
    · have := ih h2
      omega
  | case3 cur hle =>
    rw [buildSlotsGo, dif_neg hle] at h
    simp at h

/-- Embeds `slotsHorariosParaFecha(fechaIso, idOdontologo)`: union of the
slots of every vigente schedule window of the dentist for the weekday of
the (already parsed) date, then `sorted(set(...))`.  The `order_by` of the
source is dropped because the final sort makes it irrelevant. -/
def slotsHorariosParaFecha (w : World) (d : Fecha) (idOdontologo : Nat) : List Nat :=
  let qs := w.horarios.filter (fun h =>
    h.idOdontologo == idOdontologo && h.vigente && h.diaSemana == weekday d)
  let base := (qs.map (fun h =>
    if tToMinutes h.horaFin > tToMinutes h.horaInicio
    then buildSlotsFromInterval h.horaInicio h.horaFin else [])).flatten
  sortedDedup base

/-- Matching condition `Q(fecha=d) | Q(recurrente_anual=True, fecha__month=d.month, fecha__day=d.day)`
shared by `fechaBloqueada`, `bloqueoDetalle` and `Cita.clean`. -/
def bloqueoAplicaFecha (b : BloqueoDia) (d : Fecha) : Bool :=
  b.fecha == d || (b.recurrenteAnual && b.fecha.month == d.month && b.fecha.day == d.day)

/-- Embeds `fechaBloqueada(fechaIso, idOdontologo)` of `citas/views.py`:
true when a global or dentist-scoped block covers the date, including
annually recurring blocks matched by month and day. -/
def fechaBloqueada (w : World) (d : Fecha) (idOdontologo : Nat) : Bool :=
  w.bloqueos.any (fun b =>
    bloqueoAplicaFecha b d && (b.idOdontologo == none || b.idOdontologo == some idOdontologo))

/-- Embeds `bloqueoDetalle(fechaIso, idOdontologo)`: the dentist-scoped
block is preferred; `values_list("motivo", flat=True).first()` yields
`none` both when no row matches and when the first matching row has a NULL
`motivo`, and the code tests that result with `is not None`. -/
def bloqueoDetalle (w : World) (d : Fecha) (idOdontologo : Option Nat) :
    Bool × Option String :=
  let rowGlobal := ((w.bloqueos.filter (fun b =>
      bloqueoAplicaFecha b d && b.idOdontologo == none)).head?).bind (fun b => b.motivo)
  let globalCase : Bool × Option String :=
    match rowGlobal with
    | some m => (true, some m)
    | none => (false, none)
  match idOdontologo with
  | some oid =>
    let rowOdo := ((w.bloqueos.filter (fun b =>
        bloqueoAplicaFecha b d && b.idOdontologo == some oid)).head?).bind (fun b => b.motivo)
    match rowOdo with
    | some m => (true, some m)
    | none => globalCase
  | none => globalCase

/-- Response payload of the `disponibilidad` endpoint (occupied/available
times as minute-of-day numbers). -/
structure DispResponse where
  ocupadasOdontologo : List Nat
  ocupadasConsultorio : List Nat
  ocupadas : List Nat
  disponibles : List Nat
deriving DecidableEq, Repr

/-- Embeds the `disponibilidad` action of `CitaViewSet`: empty lists when
the date is blocked, otherwise the schedule slots minus the start times
occupied by non-cancelled appointments of the dentist (and of the room,
when one is supplied).  The endpoint only reads the database. -/
def disponibilidad (w : World) (fecha : Fecha) (odontologoId : Nat)
    (consultorioIdParam : Option Nat) : DispResponse :=
  if fechaBloqueada w fecha odontologoId then
    { ocupadasOdontologo := [], ocupadasConsultorio := [], ocupadas := [], disponibles := [] }
  else
    let baseSlots := slotsHorariosParaFecha w fecha odontologoId
    let ocupadasOdo := (w.citas.filter (fun c =>
      c.fecha == fecha && c.idOdontologo == odontologoId && c.estado != Estado.cancelada)).map
        (fun c => tToMinutes c.hora)
    let ocupadasCons : List Nat :=
      match consultorioIdParam with
      | some consultorioId => (w.citas.filter (fun c =>
          c.fecha == fecha && c.idConsultorio == consultorioId
            && c.estado != Estado.cancelada)).map (fun c => tToMinutes c.hora)
      | none => []
    let ocupadas := ocupadasOdo ++ ocupadasCons
    { ocupadasOdontologo := sortedDedup ocupadasOdo,
      ocupadasConsultorio := sortedDedup ocupadasCons,
      ocupadas := sortedDedup ocupadas,
      disponibles := baseSlots.filter (fun h => !(ocupadas.contains h)) }

/-- Response payload of the `dia-metadata` endpoint in its
`id_odontologo`-supplied branch. -/
structure DiaMetadataResponse where
  slotsTotales : Nat
  slotsOcupados : Nat
  lleno : Bool
  bloqueado : Bool
  motivoBloqueo : Option String
deriving DecidableEq, Repr

/-- Embeds the `dia-metadata` action of `CitaViewSet` for a given dentist:
slot totals/occupancy (excluding cancelled and maintenance appointments,
optionally narrowed to one room) and the blocked flag from `bloqueoDetalle`. -/
def diaMetadata (w : World) (fecha : Fecha) (odontologoId : Nat)
    (consultorioIdParam : Option Nat) : DiaMetadataResponse :=
  let baseSlots := slotsHorariosParaFecha w fecha odontologoId
  let qs0 := w.citas.filter (fun c =>
    c.fecha == fecha && c.idOdontologo == odontologoId
      && c.estado != Estado.cancelada && c.estado != Estado.mantenimiento)
  let qs : List Cita :=
    match consultorioIdParam with
    | some consultorioId => qs0.filter (fun c => c.idConsultorio == consultorioId)
    | none => qs0
  let ocupadas := sortedDedup (qs.map (fun c => tToMinutes c.hora))
  let slotsTotales := baseSlots.length
  let slotsOcupados := ocupadas.length
  let det := bloqueoDetalle w fecha (some odontologoId)
  { slotsTotales := slotsTotales,
    slotsOcupados := slotsOcupados,
    lleno := decide (0 < slotsTotales) && decide (slotsTotales ≤ slotsOcupados),
    bloqueado := det.1,
    motivoBloqueo := det.2 }

/-! ## Model validation (`Cita.clean` of `citas/models.py`) -/

/-- Distinct field-attributed `ValidationError` outcomes of `Cita.clean`,
in the order the checks appear in the source. -/
inductive CleanError where
  | horaMinuto
  | mismoUsuario
  | consultorioInactivo
  | fueraDeHorario
  | diaBloqueado
  | conflictoOdontologo
  | conflictoConsultorio
  | conflictoPaciente
  | almuerzo
deriving DecidableEq, Repr

/-- Python truthiness of a primary-key value (`if self.pk:`): `None` and
`0` are falsy. -/
def pkTruthy : Option Nat → Bool
  | none => false
  | some p => p != 0

/-- Python truthiness of a nullable integer id (`if uid:`). -/
def idTruthy : Option Nat → Bool
  | none => false
  | some p => p != 0

/-- Check 5 of `Cita.clean`, dentist conflict: a non-cancelled appointment
of the same dentist at the same date and hour, excluding the row being
updated (`exclude(pk=self.pk)` when `self.pk` is truthy). -/
def conflictoOdontologoB (w : World) (c : Cita) : Bool :=
  w.citas.any (fun r =>
    r.idOdontologo == c.idOdontologo && r.fecha == c.fecha && r.hora == c.hora
      && r.estado != Estado.cancelada && !(pkTruthy c.pk && r.pk == c.pk))

/-- Check 5 of `Cita.clean`, room conflict. -/
def conflictoConsultorioB (w : World) (c : Cita) : Bool :=
  w.citas.any (fun r =>
    r.idConsultorio == c.idConsultorio && r.fecha == c.fecha && r.hora == c.hora
      && r.estado != Estado.cancelada && !(pkTruthy c.pk && r.pk == c.pk))

/-- Check 5 of `Cita.clean`, patient conflict. -/
def conflictoPacienteB (w : World) (c : Cita) : Bool :=
  w.citas.any (fun r =>
    r.idPaciente == c.idPaciente && r.fecha == c.fecha && r.hora == c.hora
      && r.estado != Estado.cancelada && !(pkTruthy c.pk && r.pk == c.pk))

/-- Check 1 of `Cita.clean`: the patient and the dentist resolve to the
same user account. -/
def mismoUsuarioB (w : World) (c : Cita) : Bool :=
  if c.idPaciente != 0 && c.idOdontologo != 0 then
    let pacienteUsuario := (w.pacientes.find? (fun p => p.idPaciente == c.idPaciente)).map
      (fun p => p.idUsuario)
    let odontologoUsuario := (w.odontologos.find? (fun o => o.idOdontologo == c.idOdontologo)).map
      (fun o => o.idUsuario)
    idTruthy pacienteUsuario && idTruthy odontologoUsuario && pacienteUsuario == odontologoUsuario
  else false

/-- Check 2 of `Cita.clean`: the referenced room exists and is inactive. -/
def consultorioInactivoB (w : World) (c : Cita) : Bool :=
  c.idConsultorio != 0 &&
    (match w.consultorios.find? (fun k => k.idConsultorio == c.idConsultorio) with
     | some k => !k.estado
     | none => false)

/-- Check 3 of `Cita.clean`: no vigente schedule window of the dentist for
the weekday fully contains the one-hour slot `[start, start + 60)`. -/
def fueraDeHorarioB (w : World) (c : Cita) : Bool :=
  c.idOdontologo != 0 &&
    (let horarios := w.horarios.filter (fun h =>
       h.idOdontologo == c.idOdontologo && h.vigente && h.diaSemana == weekday c.fecha)
     let startMin := tToMinutes c.hora
     let endMin := startMin + 60
     !(horarios.any (fun h =>
        tToMinutes h.horaInicio ≤ startMin && endMin ≤ tToMinutes h.horaFin)))

/-- Check 4 of `Cita.clean`: the date falls on a global block, or on a
block of the appointment's dentist (direct date match or annual
month/day match). -/
def diaBloqueadoB (w : World) (c : Cita) : Bool :=
  w.bloqueos.any (fun b => b.idOdontologo == none && bloqueoAplicaFecha b c.fecha)
    || (c.idOdontologo != 0 &&
        w.bloqueos.any (fun b =>
          b.idOdontologo == some c.idOdontologo && bloqueoAplicaFecha b c.fecha))

/-- Embeds `Cita.clean`: the business validations, raising the first
failing check's error in source order. -/
def Cita.clean (w : World) (c : Cita) : Except CleanError Unit :=
  if c.hora.minute != 0 then .error .horaMinuto
  else if mismoUsuarioB w c then .error .mismoUsuario
  else if consultorioInactivoB w c then .error .consultorioInactivo
  else if fueraDeHorarioB w c then .error .fueraDeHorario
  else if diaBloqueadoB w c then .error .diaBloqueado
  else if c.idOdontologo != 0 && conflictoOdontologoB w c then .error .conflictoOdontologo
  else if c.idConsultorio != 0 && conflictoConsultorioB w c then .error .conflictoConsultorio
  else if c.idPaciente != 0 && conflictoPacienteB w c then .error .conflictoPaciente
  else if c.hora.hour == 13 || c.hora.hour == 14 then .error .almuerzo
  else .ok ()

/-- Next value of the `id_cita` AutoField. -/
def freshPk (w : World) : Nat :=
  (w.citas.foldl (fun m r => max m (r.pk.getD 0)) 0) + 1

/-- Replaces the row whose primary key equals `c.pk` by `c` (an SQL
UPDATE by primary key). -/
def replaceByPk (w : World) (c : Cita) : World :=
  { w with citas := w.citas.map (fun r => if r.pk == c.pk then c else r) }

/-- Embeds `Cita.save`: `self.clean()` followed by the ORM write — an
UPDATE when a row with the instance's pk exists, an INSERT (assigning a
fresh pk when the instance has none) otherwise. -/
def Cita.save (w : World) (c : Cita) : Except CleanError World :=
  match Cita.clean w c with
  | .error e => .error e
  | .ok _ =>
    match c.pk with
    | none => .ok { w with citas := w.citas ++ [{ c with pk := some (freshPk w) }] }
    | some p =>
      if w.citas.any (fun r => r.pk == some p) then .ok (replaceByPk w c)
      else .ok { w with citas := w.citas ++ [c] }

/-- Boolean success test on an `Except` result. -/
def isOkB {ε α : Type} (r : Except ε α) : Bool :=
  match r with
  | .ok _ => true
  | .error _ => false

/-! ## Policy configuration access (`Configuracion.get_config`)

The classmethod is

    config = cls.objects.get_or_create(pk=1)
    return config

and Django's `get_or_create` returns the pair `(instance, created)`, so
callers receive a Python tuple, not the model instance. -/

/-- Runtime value handed to the views by `get_config`: either the model
instance itself or the `(instance, created)` pair of `get_or_create`. -/
inductive ConfigValue where
  | instancia (c : Configuracion)
  | tupla (c : Configuracion) (created : Bool)
deriving DecidableEq, Repr

/-- Attribute table of a `Configuracion` instance (integer policy fields). -/
def Configuracion.attr (c : Configuracion) (name : String) : Option Int :=
  if name = "max_citas_activas" then some c.maxCitasActivas
  else if name = "horas_confirmar_desde" then some c.horasConfirmarDesde
  else if name = "horas_confirmar_hasta" then some c.horasConfirmarHasta
  else if name = "horas_autoconfirmar" then some c.horasAutoconfirmar
  else if name = "max_citas_dia" then some c.maxCitasDia
  else if name = "cooldown_dias" then some c.cooldownDias
  else if name = "max_reprogramaciones" then some c.maxReprogramaciones
  else if name = "min_horas_anticipacion" then some c.minHorasAnticipacion
  else none

/-- Python attribute lookup on the value returned by `get_config`:
`none` models an `AttributeError`.  A tuple exposes none of the
`Configuracion` attributes. -/
def configGetattrOpt : ConfigValue → String → Option Int
  | .instancia c, name => Configuracion.attr c name
  | .tupla _ _, _ => none

/-- Python `getattr(value, name, default)`: the default is returned
instead of raising. -/
def configGetattrDefault (v : ConfigValue) (name : String) (d : Int) : Int :=
  (configGetattrOpt v name).getD d

/-- Embeds `Configuracion.get_config`: `get_or_create(pk=1)` reuses the
stored singleton row or creates one from the field defaults, and the
method returns the resulting `(instance, created)` pair unchanged. -/
def Configuracion.get_config (w : World) : ConfigValue :=
  match w.configuracion with
  | some c => ConfigValue.tupla c false
  | none => ConfigValue.tupla defaultConfiguracion true

theorem configGetattrOpt_get_config (w : World) (name : String) :
    configGetattrOpt (Configuracion.get_config w) name = none := by
  cases h : w.configuracion <;> simp [Configuracion.get_config, h, configGetattrOpt]

theorem configGetattrDefault_get_config (w : World) (name : String) (d : Int) :
    configGetattrDefault (Configuracion.get_config w) name d = d := by
  rw [configGetattrDefault, configGetattrOpt_get_config]
  rfl

/-- Python `x or d` on integers: `0` is falsy. -/
def pyOrInt (x d : Int) : Int := if x = 0 then d else x

/-- Embeds `hoursUntil(fecha, hora)` of `citas/views.py`:
`(datetime.combine(fecha, hora) - now).total_seconds() / 3600`, with `now`
given as an absolute minute count (the fields are non-null, so the
`None` branch of the source cannot fire here). -/
def hoursUntil (f : Fecha) (t : Hora) (now : Int) : Rat :=
  ((absMinutes f t - now : Int) : Rat) / 60

/-! ## Appointment state actions (`CitaViewSet`) -/

/-- Uncaught-exception outcomes of a view: an `AttributeError` (reading a
policy attribute off the `get_config` tuple), a DRF validation error
(rendered as a 400 response without persisting anything), or a Django
`ValidationError` escaping `full_clean`/`save` (rendered as a 500). -/
inductive PyError where
  | attributeError
  | drfValidation
  | djangoValidation (e : CleanError)
deriving DecidableEq, Repr

/-- Embeds the `confirmar` action: terminal states are rejected with 400;
a patient-mode call reads `config.horas_confirmar_desde` and
`config.horas_confirmar_hasta` directly off the `get_config` result and
then checks the closed window; on success the state is saved through the
model (whose `save` re-runs `clean`). -/
def confirmar (w : World) (citaObj : Cita) (patientMode : Bool) (now : Int) :
    Except PyError (Nat × Cita × World) :=
  let config := Configuracion.get_config w
  if citaObj.estado == Estado.cancelada || citaObj.estado == Estado.realizada
      || citaObj.estado == Estado.mantenimiento then
    .ok (400, citaObj, w)
  else
    let finish : Except PyError (Nat × Cita × World) :=
      let c2 := { citaObj with estado := Estado.confirmada }
      match Cita.save w c2 with
      | .error e => .error (.djangoValidation e)
      | .ok w2 => .ok (200, c2, w2)
    if patientMode then
      let hrs := hoursUntil citaObj.fecha citaObj.hora now
      match configGetattrOpt config "horas_confirmar_desde" with
      | none => .error .attributeError
      | some vDesde =>
        let horasConfirmarDesde := pyOrInt vDesde 24
        match configGetattrOpt config "horas_confirmar_hasta" with
        | none => .error .attributeError
        | some vHasta =>
          let horasConfirmarHasta := pyOrInt vHasta 12
          if ¬((horasConfirmarHasta : Rat) ≤ hrs ∧ hrs ≤ (horasConfirmarDesde : Rat)) then
            .ok (400, citaObj, w)
          else finish
    else finish

/-- Embeds the `cancelar` action: 400 from `realizada`/`mantenimiento`, a
no-op 200 when already `cancelada`; the patient branch stamps
`cancelada_en` and the patient role, the staff branch stamps only the
acting role; the mutating branches persist through the model `save`. -/
def cancelar (w : World) (citaObj : Cita) (userPid : Option Nat) (patientMode : Bool)
    (roleId : Option Nat) (now : Int) : Except PyError (Nat × Cita × World) :=
  if citaObj.estado == Estado.realizada || citaObj.estado == Estado.mantenimiento then
    .ok (400, citaObj, w)
  else if citaObj.estado == Estado.cancelada then
    .ok (200, citaObj, w)
  else
    let esElPaciente := idTruthy userPid && userPid == some citaObj.idPaciente
    if esElPaciente || patientMode then
      if citaObj.estado == Estado.confirmada then
        .ok (400, citaObj, w)
      else
        let c2 := { citaObj with
          estado := Estado.cancelada
          canceladaEn := some now
          canceladaPorRol := some ROL_PACIENTE }
        match Cita.save w c2 with
        | .error e => .error (.djangoValidation e)
        | .ok w2 => .ok (200, c2, w2)
    else
      let c2 := { citaObj with estado := Estado.cancelada, canceladaPorRol := roleId }
      match Cita.save w c2 with
      | .error e => .error (.djangoValidation e)
      | .ok w2 => .ok (200, c2, w2)

/-- Embeds the `reprogramar` action for already-parsed date and hour
parameters.  The patient branch enforces ownership, the confirmed-state
ban, the reprogramming cap (read with `getattr(..., 1) or 1` off the
`get_config` tuple, hence always 1), and the one-per-day rule, then
increments the counter; both branches stamp the new schedule and audit
fields and persist through `full_clean` + `save` (a failing validation
escapes as an uncaught Django `ValidationError`). -/
def reprogramar (w : World) (citaObj : Cita) (patientMode : Bool) (myPid : Option Nat)
    (nuevaFecha : Fecha) (nuevaHora : Hora) (nuevoConsultorio : Option Nat)
    (roleId : Option Nat) (now : Int) : Except PyError (Nat × Cita × World) :=
  let config := Configuracion.get_config w
  if citaObj.estado == Estado.realizada || citaObj.estado == Estado.cancelada
      || citaObj.estado == Estado.mantenimiento then
    .ok (400, citaObj, w)
  else
    let aplicar : Cita → Except PyError (Nat × Cita × World) := fun cita1 =>
      let cita2 := { cita1 with
        fecha := nuevaFecha
        hora := nuevaHora
        idConsultorio :=
          match nuevoConsultorio with
          | some cid => if cid != 0 then cid else cita1.idConsultorio
          | none => cita1.idConsultorio
        reprogramadaEn := some now
        reprogramadaPorRol := roleId }
      match Cita.save w cita2 with
      | .error e => .error (.djangoValidation e)
      | .ok w2 => .ok (200, cita2, w2)
    if patientMode then
      if !(idTruthy myPid && myPid == some citaObj.idPaciente) then
        .ok (403, citaObj, w)
      else if citaObj.estado == Estado.confirmada then
        .ok (400, citaObj, w)
      else
        let maxReprog := pyOrInt (configGetattrDefault config "max_reprogramaciones" 1) 1
        if (citaObj.reprogramaciones : Int) ≥ maxReprog then
          .ok (400, citaObj, w)
        else
          let existeMismoDia := w.citas.any (fun r =>
            r.idPaciente == citaObj.idPaciente && r.fecha == nuevaFecha
              && r.pk != citaObj.pk
              && !(r.estado == Estado.cancelada || r.estado == Estado.mantenimiento))
          if existeMismoDia then
            .ok (400, citaObj, w)
          else
            aplicar { citaObj with reprogramaciones := citaObj.reprogramaciones + 1 }
    else
      aplicar citaObj

/-- Fresh `Cita` row assembled by `CitaSerializer.save` from the validated
payload and the extra keyword arguments of `perform_create`. -/
def mkCita (pacientePk odontologoPk consultorioPk : Nat) (f : Fecha) (t : Hora)
    (estadoInicial : Estado) : Cita :=
  { pk := none, idPaciente := pacientePk, idOdontologo := odontologoPk,
    idConsultorio := consultorioPk, fecha := f, hora := t, estado := estadoInicial,
    reprogramaciones := 0, canceladaEn := none, canceladaPorRol := none,
    ausentismo := false, reprogramadaEn := none, reprogramadaPorRol := none,
    batchId := none }

/-- Tail of `perform_create` shared by the two patient sub-branches: the
initial-state decision (`config.horas_autoconfirmar`, a direct attribute
read) followed by `serializer.save(id_paciente_id=myPid,
reprogramaciones=0, estado=estadoInicial)`. -/
def perform_create_paciente_tail (w : World) (config : ConfigValue) (pid : Nat)
    (vFecha : Fecha) (vHora : Hora) (odontologoPk consultorioPk : Nat) (now : Int) :
    Except PyError World :=
  match configGetattrOpt config "horas_autoconfirmar" with
  | none => .error .attributeError
  | some vAuto =>
    let horasAutoconfirmar := pyOrInt vAuto 24
    let horas := hoursUntil vFecha vHora now
    let estadoInicial :=
      if horas < (horasAutoconfirmar : Rat) then Estado.confirmada else Estado.pendiente
    match Cita.save w (mkCita pid odontologoPk consultorioPk vFecha vHora estadoInicial) with
    | .error e => .error (.djangoValidation e)
    | .ok w2 => .ok w2

/-- Embeds `perform_create` of `CitaViewSet`: the patient branch applies
the active-appointments cap, the per-day cap, the one-active-per-dentist
rule and the cooldown (`config.cooldown_dias`, a direct attribute read),
then decides the initial state; the staff branch goes straight to the
initial-state decision (`config.horas_autoconfirmar`, also a direct
read). -/
def perform_create (w : World) (patientMode : Bool) (myPid : Option Nat)
    (vFecha : Fecha) (vHora : Hora) (odontologoPk consultorioPk pacientePkStaff : Nat)
    (now : Int) : Except PyError World :=
  let config := Configuracion.get_config w
  if patientMode then
    match myPid with
    | none => .error .drfValidation
    | some pid =>
      if pid == 0 then .error .drfValidation
      else
        let maxActivas := pyOrInt (configGetattrDefault config "max_citas_activas" 1) 1
        let citasActivasCount := (w.citas.filter (fun r =>
          r.idPaciente == pid
            && (r.estado == Estado.pendiente || r.estado == Estado.confirmada))).length
        if (citasActivasCount : Int) ≥ maxActivas then .error .drfValidation
        else
          let maxCitasDia := pyOrInt (configGetattrDefault config "max_citas_dia" 1) 1
          let citasMismoDia := (w.citas.filter (fun r =>
            r.idPaciente == pid && r.fecha == vFecha
              && !(r.estado == Estado.cancelada || r.estado == Estado.mantenimiento))).length
          if (citasMismoDia : Int) ≥ maxCitasDia then .error .drfValidation
          else if odontologoPk != 0 then
            let conflict := w.citas.any (fun r =>
              r.idPaciente == pid && r.idOdontologo == odontologoPk
                && (r.estado == Estado.pendiente || r.estado == Estado.confirmada))
            if conflict then .error .drfValidation
            else
              match configGetattrOpt config "cooldown_dias" with
              | none => .error .attributeError
              | some vCooldown =>
                let cooldownDias := pyOrInt vCooldown 0
                let hace := now - cooldownDias * 1440
                let tieneCancelReciente := w.citas.any (fun r =>
                  r.idPaciente == pid && r.idOdontologo == odontologoPk
                    && r.estado == Estado.cancelada
                    && r.canceladaPorRol == some ROL_PACIENTE
                    && (match r.canceladaEn with
                        | some t => decide (hace ≤ t)
                        | none => false))
                if tieneCancelReciente then .error .drfValidation
                else perform_create_paciente_tail w config pid vFecha vHora
                  odontologoPk consultorioPk now
          else perform_create_paciente_tail w config pid vFecha vHora
            odontologoPk consultorioPk now
  else
    match configGetattrOpt config "horas_autoconfirmar" with
    | none => .error .attributeError
    | some vAuto =>
      let horasAutoconfirmar := pyOrInt vAuto 24
      let horas := hoursUntil vFecha vHora now
      let estadoInicial :=
        if horas < (horasAutoconfirmar : Rat) then Estado.confirmada else Estado.pendiente
      match Cita.save w
          (mkCita pacientePkStaff odontologoPk consultorioPk vFecha vHora estadoInicial) with
      | .error e => .error (.djangoValidation e)
      | .ok w2 => .ok w2

/-! ## Bulk transition services (`citas/services/`) -/

/-- Embeds `_q_futuras` / `_qFuturas`: the appointment starts at or after
the cutoff `dtFrom` (later date, or same date with `hora >= dtFrom.time()`). -/
def qFuturas (dtFrom : FechaHora) (c : Cita) : Bool :=
  fechaLt dtFrom.fecha c.fecha || (c.fecha == dtFrom.fecha && tToMinutes c.hora ≥ dtFrom.minutos)

/-- Ordinal (1..366) of a month/day pair within the base year 2000 used by
`_days_in_mmdd_range`. -/
def mmddOrd2000 (m d : Nat) : Nat := daysBeforeMonth 2000 m + d

/-- Inverse of `mmddOrd2000`: walks the months of the (leap) base year. -/
def ordToMmdd2000Go (m rem : Nat) : Nat × Nat :=
  if _h : 12 ≤ m then (m, rem)
  else if rem ≤ monthLength 2000 m then (m, rem)
  else ordToMmdd2000Go (m + 1) (rem - monthLength 2000 m)
termination_by 12 - m
decreasing_by omega

/-- Month/day pair of an ordinal in the base year 2000. -/
def ordToMmdd2000 (n : Nat) : Nat × Nat := ordToMmdd2000Go 1 n

/-- Embeds `_days_in_mmdd_range(start, end)`: every (month, day) of the
range interpreted in the base year 2000, with the year-wrap branch
(`s..Dec31` then `Jan01..e`) when the start falls after the end. -/
def daysInMmddRange (start stop : Fecha) : List (Nat × Nat) :=
  let s := mmddOrd2000 start.month start.day
  let e := mmddOrd2000 stop.month stop.day
  if s ≤ e then (List.range (e + 1 - s)).map (fun k => ordToMmdd2000 (s + k))
  else (List.range (366 + 1 - s)).map (fun k => ordToMmdd2000 (s + k))
    ++ (List.range e).map (fun k => ordToMmdd2000 (1 + k))

/-- Embeds `_q_rango_fechas`: plain `fecha__range` when not recurring,
otherwise a month/day match against `_days_in_mmdd_range`. -/
def qRangoFechas (fi ff : Fecha) (recurrenteAnual : Bool) (fecha : Fecha) : Bool :=
  if !recurrenteAnual then fechaLe fi fecha && fechaLe fecha ff
  else (daysInMmddRange fi ff).any (fun md => md.1 == fecha.month && md.2 == fecha.day)

/-- Embeds `_qs_base_bloqueo`: future appointments in the (possibly
recurring) range, excluding cancelled ones, optionally narrowed to one
dentist (`none` = global block, all dentists). -/
def qsBaseBloqueoSel (fi ff : Fecha) (idOdontologo : Option Nat) (recurrenteAnual : Bool)
    (dtFrom : FechaHora) (c : Cita) : Bool :=
  qRangoFechas fi ff recurrenteAnual c.fecha && qFuturas dtFrom c
    && c.estado != Estado.cancelada
    && (match idOdontologo with
        | some oid => c.idOdontologo == oid
        | none => true)

/-- Embeds `previewMantenimientoBloqueo`: the count of affected future
pending/confirmed appointments (the listing and the per-state histogram
of the source are byproducts of the same selection and are omitted). -/
def previewMantenimientoBloqueo (w : World) (fi ff : Fecha) (idOdontologo : Option Nat)
    (recurrenteAnual : Bool) (dtFrom : FechaHora) : Nat :=
  (w.citas.filter (fun c =>
    qsBaseBloqueoSel fi ff idOdontologo recurrenteAnual dtFrom c
      && (c.estado == Estado.pendiente || c.estado == Estado.confirmada))).length

/-- Field update performed by the bulk maintenance writes: state to
`mantenimiento` plus the audit stamp (timestamp, acting role, batch id). -/
def stampMantenimiento (now : Int) (byRoleId batch : Nat) (c : Cita) : Cita :=
  { c with
    estado := Estado.mantenimiento
    reprogramadaEn := some now
    reprogramadaPorRol := some byRoleId
    batchId := some batch }

/-- Return payload of `applyMantenimientoBloqueo`: the generated batch id
and the number of updated rows. -/
structure BloqueoApplyResult where
  batchId : Nat
  totalMantenimiento : Nat
deriving DecidableEq, Repr

/-- Embeds `applyMantenimientoBloqueo`: one batched `qs.update(...)` that
moves every selected future pending/confirmed appointment of the range to
`mantenimiento` with the audit stamp; `batch` stands for the generated
`uuid4()`. -/
def applyMantenimientoBloqueo (w : World) (fi ff : Fecha) (byRoleId : Nat)
    (idOdontologo : Option Nat) (recurrenteAnual : Bool) (dtFrom : FechaHora)
    (batch : Nat) (now : Int) : World × BloqueoApplyResult :=
  let sel := fun (c : Cita) =>
    qsBaseBloqueoSel fi ff idOdontologo recurrenteAnual dtFrom c
      && (c.estado == Estado.pendiente || c.estado == Estado.confirmada)
  let updated := (w.citas.filter sel).length
  let w2 := { w with citas := w.citas.map (fun c =>
    if sel c then stampMantenimiento now byRoleId batch c else c) }
  (w2, { batchId := batch, totalMantenimiento := updated })

/-- Embeds `applyReactivacionBloqueo`: one batched `qs.update` returning
every selected future `mantenimiento` appointment of the range to
`pendiente`. -/
def applyReactivacionBloqueo (w : World) (fi ff : Fecha) (idOdontologo : Option Nat)
    (recurrenteAnual : Bool) (dtFrom : FechaHora) : World × Nat :=
  let sel := fun (c : Cita) =>
    qsBaseBloqueoSel fi ff idOdontologo recurrenteAnual dtFrom c
      && c.estado == Estado.mantenimiento
  let changed := (w.citas.filter sel).length
  let w2 := { w with citas := w.citas.map (fun c =>
    if sel c then { c with estado := Estado.pendiente } else c) }
  (w2, changed)

/-- Row-by-row loop of the consultorio/odontologo maintenance applies:
each selected row is stamped and saved through the model (`save` re-runs
`clean`; a failure aborts the whole batch, as `transaction.atomic` rolls
it back). -/
def saveLoopMantenimiento (now : Int) (byRoleId batch : Nat) :
    World → List Cita → Except CleanError (World × Nat)
  | w, [] => .ok (w, 0)
  | w, c :: rest =>
    let c2 := stampMantenimiento now byRoleId batch c
    match Cita.save w c2 with
    | .error e => .error e
    | .ok w2 =>
      match saveLoopMantenimiento now byRoleId batch w2 rest with
      | .error e => .error e
      | .ok (w3, n) => .ok (w3, n + 1)

/-- Embeds `previewMantenimientoConsultorio`: count of future
appointments of the room, excluding only cancelled ones. -/
def previewMantenimientoConsultorio (w : World) (consultorioId : Nat)
    (dtFrom : FechaHora) : Nat :=
  (w.citas.filter (fun c =>
    c.idConsultorio == consultorioId && qFuturas dtFrom c
      && c.estado != Estado.cancelada)).length

/-- Embeds `applyMantenimientoConsultorio`: selects the future
appointments of the room excluding only cancelled ones (done and
maintenance rows are selected too), then stamps and saves each row. -/
def applyMantenimientoConsultorio (w : World) (consultorioId byRoleId : Nat)
    (batch : Nat) (now : Int) (dtFrom : FechaHora) : Except CleanError (World × Nat) :=
  let qs := w.citas.filter (fun c =>
    c.idConsultorio == consultorioId && qFuturas dtFrom c
      && c.estado != Estado.cancelada)
  saveLoopMantenimiento now byRoleId batch w qs

/-- Embeds `applyReactivacionConsultorio`: one batched `qs.update` moving
the room's future `mantenimiento` appointments back to `pendiente`. -/
def applyReactivacionConsultorio (w : World) (consultorioId : Nat)
    (dtFrom : FechaHora) : World × Nat :=
  let sel := fun (c : Cita) =>
    c.idConsultorio == consultorioId && c.estado == Estado.mantenimiento
      && qFuturas dtFrom c
  let changed := (w.citas.filter sel).length
  let w2 := { w with citas := w.citas.map (fun c =>
    if sel c then { c with estado := Estado.pendiente } else c) }
  (w2, changed)

/-- Embeds `applyMantenimientoOdontologo`: selects the dentist's future
pending/confirmed appointments only, then stamps and saves each row. -/
def applyMantenimientoOdontologo (w : World) (idOdontologo byRoleId : Nat)
    (batch : Nat) (now : Int) (dtFrom : FechaHora) : Except CleanError (World × Nat) :=
  let qs := w.citas.filter (fun c =>
    c.idOdontologo == idOdontologo && qFuturas dtFrom c
      && (c.estado == Estado.pendiente || c.estado == Estado.confirmada))
  saveLoopMantenimiento now byRoleId batch w qs

/-- Embeds `applyReactivacionOdontologo`: one batched `qs.update` moving
the dentist's future `mantenimiento` appointments back to `pendiente`. -/
def applyReactivacionOdontologo (w : World) (idOdontologo : Nat)
    (dtFrom : FechaHora) : World × Nat :=
  let sel := fun (c : Cita) =>
    c.idOdontologo == idOdontologo && c.estado == Estado.mantenimiento
      && qFuturas dtFrom c
  let changed := (w.citas.filter sel).length
  let w2 := { w with citas := w.citas.map (fun c =>
    if sel c then { c with estado := Estado.pendiente } else c) }
  (w2, changed)

/-! ## Block-group creation and create-and-apply
(`odontologos/serializers.py`, `odontologos/views.py`) -/

/-- Fuel-driven version of the serializer's `while cur <= ff` day loop;
the fuel passed by `datesInRange` equals the number of iterations the
source loop performs. -/
def datesInRangeGo (ff : Fecha) : Fecha → Nat → List Fecha
  | _, 0 => []
  | cur, fuel + 1 =>
    if fechaLe cur ff then cur :: datesInRangeGo ff (nextDate cur) fuel else []

/-- Calendar days of the closed range `[fi, ff]`. -/
def datesInRange (fi ff : Fecha) : List Fecha :=
  datesInRangeGo ff fi (dateOrdinal ff + 1 - dateOrdinal fi)

/-- Embeds `_overlap_q` of `BloqueoGrupoSerializer`: an existing block of
the same scope overlaps the requested range either directly
(non-recurring, `fecha` in range) or by month/day (recurring). -/
def overlapQ (fi ff : Fecha) (idOd : Option Nat) (b : BloqueoDia) : Bool :=
  b.idOdontologo == idOd &&
    ((!b.recurrenteAnual && fechaLe fi b.fecha && fechaLe b.fecha ff)
      || (b.recurrenteAnual && (datesInRange fi ff).any (fun d =>
            b.fecha.month == d.month && b.fecha.day == d.day)))

/-- Next value of the `id_bloqueo` AutoField. -/
def freshBloqueoPk (w : World) : Nat :=
  (w.bloqueos.foldl (fun m b => max m b.idBloqueo) 0) + 1

/-- Embeds `BloqueoGrupoSerializer.create`: range validation, the
permission rules (only an admin touches global blocks; a dentist only
their own scope), the dentist-existence check, the anti-overlap check,
then one `BloqueoDia` row per day of the range sharing the group id
(`grupo` stands for the generated `uuid4()`). -/
def bloqueoGrupoCreate (w : World) (roleId : Option Nat) (myOdOfUser : Option Nat)
    (fi ff : Fecha) (idOd : Option Nat) (motivo : String) (recurrenteAnual : Bool)
    (grupo : Nat) : Except PyError (World × Nat) :=
  if fechaLt ff fi then .error .drfValidation
  else if !(idTruthy idOd) && roleId != some 1 then .error .drfValidation
  else if roleId == some 3 && idTruthy idOd && myOdOfUser != idOd then .error .drfValidation
  else if idTruthy idOd
      && !(w.odontologos.any (fun o => some o.idOdontologo == idOd)) then
    .error .drfValidation
  else if w.bloqueos.any (overlapQ fi ff idOd) then .error .drfValidation
  else
    let dias := datesInRange fi ff
    let base := freshBloqueoPk w
    let nuevos := dias.enum.map (fun par =>
      { idBloqueo := base + par.1
        idOdontologo := idOd
        fecha := par.2
        recurrenteAnual := recurrenteAnual
        motivo := some motivo
        grupo := grupo : BloqueoDia })
    .ok ({ w with bloqueos := w.bloqueos ++ nuevos }, grupo)

/-- Response of the `create-and-apply` action: the created group, the
preview count, and — only when the apply step ran — its batch result. -/
structure CreateApplyResponse where
  group : Nat
  previewTotal : Nat
  applyResult : Option BloqueoApplyResult
deriving DecidableEq, Repr

/-- Embeds `BloqueoDiaViewSet.create_and_apply`: create the group, run
the preview, and only when `confirm` is set AND the preview found at
least one affected appointment run `applyMantenimientoBloqueo`; otherwise
the response carries no apply payload (hence no batch id). -/
def create_and_apply (w : World) (confirm : Bool) (roleId : Option Nat)
    (myOdOfUser : Option Nat) (fi ff : Fecha) (idOd : Option Nat) (motivo : String)
    (recurrenteAnual : Bool) (grupo batch : Nat) (dtFrom : FechaHora) (now : Int) :
    Except PyError (World × CreateApplyResponse) :=
  match bloqueoGrupoCreate w roleId myOdOfUser fi ff idOd motivo recurrenteAnual grupo with
  | .error e => .error e
  | .ok (w1, g) =>
    let previewTotal := previewMantenimientoBloqueo w1 fi ff idOd recurrenteAnual dtFrom
    if !confirm || previewTotal == 0 then
      .ok (w1, { group := g, previewTotal := previewTotal, applyResult := none })
    else
      let byRole := pyOrInt ((roleId.map (fun r => (r : Int))).getD 1) 1
      let res := applyMantenimientoBloqueo w1 fi ff byRole.toNat idOd recurrenteAnual
        dtFrom batch now
      .ok (res.1, { group := g, previewTotal := previewTotal, applyResult := some res.2 })

/-! ## C1: uniqueness of active appointments per dentist, room and patient -/

/-- Uniqueness of the key `(key c, fecha, hora)` among non-cancelled
appointments — the shape shared by the three conditional unique
constraints of `Cita.Meta` (distinct rows are rows with distinct primary
keys). -/
def UqKey (key : Cita → Nat) (w : World) : Prop :=
  ∀ a ∈ w.citas, ∀ b ∈ w.citas, a.pk ≠ b.pk →
    a.estado ≠ Estado.cancelada → b.estado ≠ Estado.cancelada →
    (key a, a.fecha, a.hora) ≠ (key b, b.fecha, b.hora)

instance (key : Cita → Nat) (w : World) : Decidable (UqKey key w) := by
  unfold UqKey; exact inferInstance

/-- Constraint `uq_cita_odo_fecha_hora_activa` of `Cita.Meta`. -/
def uqCitaOdoFechaHoraActiva (w : World) : Prop := UqKey (fun c => c.idOdontologo) w

/-- Constraint `uq_cita_consul_fecha_hora_activa` of `Cita.Meta`. -/
def uqCitaConsulFechaHoraActiva (w : World) : Prop := UqKey (fun c => c.idConsultorio) w

/-- Constraint `uq_cita_paciente_fecha_hora_activa` of `Cita.Meta`. -/
def uqCitaPacienteFechaHoraActiva (w : World) : Prop := UqKey (fun c => c.idPaciente) w

/-- Conflict-freedom fact delivered by a passed `clean` for one key
family: no stored non-cancelled row outside the updated one shares the
key with the candidate. -/
def NoConflict (key : Cita → Nat) (w : World) (c : Cita) : Prop :=
  ∀ r ∈ w.citas, r.estado ≠ Estado.cancelada →
    ¬(pkTruthy c.pk = true ∧ r.pk = c.pk) →
    ¬(key r = key c ∧ r.fecha = c.fecha ∧ r.hora = c.hora)

theorem any_conflict_eq_false {key : Cita → Nat} {w : World} {c : Cita}
    (h : (w.citas.any (fun r =>
      key r == key c && r.fecha == c.fecha && r.hora == c.hora
        && r.estado != Estado.cancelada && !(pkTruthy c.pk && r.pk == c.pk))) = false) :
    NoConflict key w c := by
  rw [List.any_eq_false] at h
  intro r hr hest hexcl hkeys
  obtain ⟨hk, hf, hh⟩ := hkeys
  apply h r hr
  have h1 : (key r == key c) = true := beq_iff_eq.mpr hk
  have h2 : (r.fecha == c.fecha) = true := beq_iff_eq.mpr hf
  have h3 : (r.hora == c.hora) = true := beq_iff_eq.mpr hh
  have h4 : (r.estado != Estado.cancelada) = true := bne_iff_ne.mpr hest
  have h5 : (!(pkTruthy c.pk && r.pk == c.pk)) = true := by
    rcases Bool.eq_false_or_eq_true (pkTruthy c.pk) with hq | hq
    · have hne : (r.pk == c.pk) = false := by
        rcases Bool.eq_false_or_eq_true (r.pk == c.pk) with hr2 | hr2
        · exact absurd ⟨hq, beq_iff_eq.mp hr2⟩ hexcl
        · exact hr2
      simp [hne]
    · simp [hq]
  simp [h1, h2, h3, h4, h5]

theorem clean_ok_no_conflicts (w : World) (c : Cita)
    (hO : c.idOdontologo ≠ 0) (hC : c.idConsultorio ≠ 0) (hP : c.idPaciente ≠ 0)
    (h : Cita.clean w c = Except.ok ()) :
    NoConflict (fun x => x.idOdontologo) w c ∧ NoConflict (fun x => x.idConsultorio) w c
      ∧ NoConflict (fun x => x.idPaciente) w c := by
  unfold Cita.clean at h
  split_ifs at h with h1 h2 h3 h4 h5 h6 h7 h8 h9
  refine ⟨?_, ?_, ?_⟩
  · apply any_conflict_eq_false
    have hres : conflictoOdontologoB w c = false := by
      rcases Bool.eq_false_or_eq_true (conflictoOdontologoB w c) with hct | hcf
      · have : (c.idOdontologo != 0 && conflictoOdontologoB w c) = true := by
          rw [Bool.and_eq_true]; exact ⟨bne_iff_ne.mpr hO, hct⟩
        exact absurd this h6
      · exact hcf
    simpa [conflictoOdontologoB] using hres
  · apply any_conflict_eq_false
    have hres : conflictoConsultorioB w c = false := by
      rcases Bool.eq_false_or_eq_true (conflictoConsultorioB w c) with hct | hcf
      · have : (c.idConsultorio != 0 && conflictoConsultorioB w c) = true := by
          rw [Bool.and_eq_true]; exact ⟨bne_iff_ne.mpr hC, hct⟩
        exact absurd this h7
      · exact hcf
    simpa [conflictoConsultorioB] using hres
  · apply any_conflict_eq_false
    have hres : conflictoPacienteB w c = false := by
      rcases Bool.eq_false_or_eq_true (conflictoPacienteB w c) with hct | hcf
      · have : (c.idPaciente != 0 && conflictoPacienteB w c) = true := by
          rw [Bool.and_eq_true]; exact ⟨bne_iff_ne.mpr hP, hct⟩
        exact absurd this h8
      · exact hcf
    simpa [conflictoPacienteB] using hres

theorem UqKey_insert (key : Cita → Nat) (w : World) (c n : Cita)
    (hkey : key n = key c) (hf : n.fecha = c.fecha) (hh : n.hora = c.hora)
    (hnotexcl : ∀ r ∈ w.citas, ¬(pkTruthy c.pk = true ∧ r.pk = c.pk))
    (hconf : NoConflict key w c) (hw : UqKey key w) :
    UqKey key { w with citas := w.citas ++ [n] } := by
  intro a ha b hb hpk hea heb
  simp only [List.mem_append, List.mem_singleton] at ha hb
  rcases ha with ha | rfl
  · rcases hb with hb | rfl
    · exact hw a ha b hb hpk hea heb
    · intro heq
      simp only [Prod.mk.injEq] at heq
      obtain ⟨hk, hfe, hho⟩ := heq
      exact hconf a ha hea (hnotexcl a ha) ⟨hkey ▸ hk, hf ▸ hfe, hh ▸ hho⟩
  · rcases hb with hb | rfl
    · intro heq
      simp only [Prod.mk.injEq] at heq
      obtain ⟨hk, hfe, hho⟩ := heq
      exact hconf b hb heb (hnotexcl b hb) ⟨hkey ▸ hk.symm, hf ▸ hfe.symm, hh ▸ hho.symm⟩
    · exact absurd rfl hpk

theorem UqKey_update (key : Cita → Nat) (w : World) (c : Cita)
    (hconf : NoConflict key w c) (hw : UqKey key w) :
    UqKey key (replaceByPk w c) := by
  intro a ha b hb hpk hea heb
  simp only [replaceByPk, List.mem_map] at ha hb
  rcases ha with ⟨ra, hra, haeq⟩
  rcases hb with ⟨rb, hrb, hbeq⟩
  by_cases hka : (ra.pk == c.pk) = true
  · by_cases hkb : (rb.pk == c.pk) = true
    · rw [if_pos hka] at haeq
      rw [if_pos hkb] at hbeq
      rw [← haeq, ← hbeq] at hpk
      exact absurd rfl hpk
    · rw [if_pos hka] at haeq
      rw [if_neg hkb] at hbeq
      subst haeq
      subst hbeq
      intro heq
      simp only [Prod.mk.injEq] at heq
      obtain ⟨hk, hfe, hho⟩ := heq
      have hbex : ¬(pkTruthy c.pk = true ∧ rb.pk = c.pk) := by
        rintro ⟨-, hbp⟩
        exact hkb (beq_iff_eq.mpr hbp)
      exact hconf rb hrb heb hbex ⟨hk.symm, hfe.symm, hho.symm⟩
  · by_cases hkb : (rb.pk == c.pk) = true
    · rw [if_neg hka] at haeq
      rw [if_pos hkb] at hbeq
      subst haeq
      subst hbeq
      intro heq
      simp only [Prod.mk.injEq] at heq
      obtain ⟨hk, hfe, hho⟩ := heq
      have haex : ¬(pkTruthy c.pk = true ∧ ra.pk = c.pk) := by
        rintro ⟨-, hap⟩
        exact hka (beq_iff_eq.mpr hap)
      exact hconf ra hra hea haex ⟨hk, hfe, hho⟩
    · rw [if_neg hka] at haeq
      rw [if_neg hkb] at hbeq
      subst haeq
      subst hbeq
      exact hw ra hra rb hrb hpk hea heb

instance (w : World) : Decidable (uqCitaOdoFechaHoraActiva w) := by
  unfold uqCitaOdoFechaHoraActiva; exact inferInstance

instance (w : World) : Decidable (uqCitaConsulFechaHoraActiva w) := by
  unfold uqCitaConsulFechaHoraActiva; exact inferInstance

instance (w : World) : Decidable (uqCitaPacienteFechaHoraActiva w) := by
  unfold uqCitaPacienteFechaHoraActiva; exact inferInstance

/-- C1.  Every persistence of an appointment through the model
(`Cita.save`, i.e. `clean` plus the ORM write — the path taken by create,
update and reschedule) preserves the three uniqueness invariants of
`Cita.Meta`: among non-cancelled appointments, no two distinct rows share
(dentist, date, start-time), (room, date, start-time) or (patient, date,
start-time).  Moreover the pre-persist validation rejects any candidate
that collides with an existing non-cancelled appointment on one of the
three keys, excluding the row being updated. -/
theorem cita_uniqueness_invariant :
    (∀ (w : World) (c : Cita) (w2 : World),
      c.idOdontologo ≠ 0 → c.idConsultorio ≠ 0 → c.idPaciente ≠ 0 →
      uqCitaOdoFechaHoraActiva w → uqCitaConsulFechaHoraActiva w →
      uqCitaPacienteFechaHoraActiva w →
      Cita.save w c = Except.ok w2 →
      uqCitaOdoFechaHoraActiva w2 ∧ uqCitaConsulFechaHoraActiva w2
        ∧ uqCitaPacienteFechaHoraActiva w2)
    ∧
    (∀ (w : World) (c : Cita),
      c.idOdontologo ≠ 0 → c.idConsultorio ≠ 0 → c.idPaciente ≠ 0 →
      (∃ r, r ∈ w.citas ∧ r.estado ≠ Estado.cancelada ∧
        ¬(pkTruthy c.pk = true ∧ r.pk = c.pk) ∧
        ((r.idOdontologo, r.fecha, r.hora) = (c.idOdontologo, c.fecha, c.hora)
          ∨ (r.idConsultorio, r.fecha, r.hora) = (c.idConsultorio, c.fecha, c.hora)
          ∨ (r.idPaciente, r.fecha, r.hora) = (c.idPaciente, c.fecha, c.hora))) →
      isOkB (Cita.save w c) = false) := by
  constructor
  · intro w c w2 hO hC hP hu1 hu2 hu3 hsave
    unfold Cita.save at hsave
    cases hclean : Cita.clean w c with
    | error e =>
      rw [hclean] at hsave
      exact absurd hsave (by simp)
    | ok u =>
      cases u
      rw [hclean] at hsave
      obtain ⟨hco, hcc, hcp⟩ := clean_ok_no_conflicts w c hO hC hP hclean
      cases hpk : c.pk with
      | none =>
        rw [hpk] at hsave
        simp only [Except.ok.injEq] at hsave
        subst hsave
        have hne : ∀ r ∈ w.citas, ¬(pkTruthy c.pk = true ∧ r.pk = c.pk) := by
          intro r _ hcontra
          obtain ⟨ht, -⟩ := hcontra
          rw [hpk] at ht
          simp [pkTruthy] at ht
        exact ⟨UqKey_insert _ w c _ rfl rfl rfl hne hco hu1,
               UqKey_insert _ w c _ rfl rfl rfl hne hcc hu2,
               UqKey_insert _ w c _ rfl rfl rfl hne hcp hu3⟩
      | some p =>
        rw [hpk] at hsave
        by_cases hex : (w.citas.any (fun r => r.pk == some p)) = true
        · simp only [hex, if_true, Except.ok.injEq] at hsave
          subst hsave
          exact ⟨UqKey_update _ w c hco hu1,
                 UqKey_update _ w c hcc hu2,
                 UqKey_update _ w c hcp hu3⟩
        · simp only [Bool.not_eq_true] at hex
          simp only [hex, Bool.false_eq_true, if_false, Except.ok.injEq] at hsave
          subst hsave
          rw [Bool.eq_false_iff] at hex
          have hne : ∀ r ∈ w.citas, ¬(pkTruthy c.pk = true ∧ r.pk = c.pk) := by
            intro r hr hcontra
            obtain ⟨-, hrp⟩ := hcontra
            rw [hpk] at hrp
            apply hex
            rw [List.any_eq_true]
            exact ⟨r, hr, beq_iff_eq.mpr hrp⟩
          exact ⟨UqKey_insert _ w c c rfl rfl rfl hne hco hu1,
                 UqKey_insert _ w c c rfl rfl rfl hne hcc hu2,
                 UqKey_insert _ w c c rfl rfl rfl hne hcp hu3⟩
  · intro w c hO hC hP hcollide
    obtain ⟨r, hr, hest, hexcl, hdisj⟩ := hcollide
    unfold Cita.save
    cases hclean : Cita.clean w c with
    | error e =>
      simp [isOkB]
    | ok u =>
      cases u
      exfalso
      obtain ⟨hco, hcc, hcp⟩ := clean_ok_no_conflicts w c hO hC hP hclean
      rcases hdisj with h | h | h
      · simp only [Prod.mk.injEq] at h
        exact hco r hr hest hexcl ⟨h.1, h.2.1, h.2.2⟩
      · simp only [Prod.mk.injEq] at h
        exact hcc r hr hest hexcl ⟨h.1, h.2.1, h.2.2⟩
      · simp only [Prod.mk.injEq] at h
        exact hcp r hr hest hexcl ⟨h.1, h.2.1, h.2.2⟩

/-- Example date 2025-01-13, a Monday (`weekday = 0`). -/
def fechaLunes : Fecha := ⟨2025, 1, 13⟩

/-- Example vigente Monday window 09:00-12:00 of dentist 1. -/
def horario9a12 : OdontologoHorario :=
  { idHorario := 1, idOdontologo := 1, diaSemana := 0,
    horaInicio := ⟨9, 0⟩, horaFin := ⟨12, 0⟩, vigente := true }

/-- Example stored appointment: dentist 1, room 1, patient 1, Monday 09:00,
pending. -/
def citaBase : Cita :=
  { pk := some 1, idPaciente := 1, idOdontologo := 1, idConsultorio := 1,
    fecha := fechaLunes, hora := ⟨9, 0⟩, estado := Estado.pendiente,
    reprogramaciones := 0, canceladaEn := none, canceladaPorRol := none,
    ausentismo := false, reprogramadaEn := none, reprogramadaPorRol := none,
    batchId := none }

/-- Example database: one patient, one dentist, one active room, the
Monday window, no blocks, one stored appointment, default policy row. -/
def worldBase : World :=
  { pacientes := [⟨1, 20⟩], odontologos := [⟨1, 10⟩], consultorios := [⟨1, true⟩],
    horarios := [horario9a12], bloqueos := [], citas := [citaBase],
    configuracion := some defaultConfiguracion }

/-- Non-colliding unsaved candidate: same actors, Monday 10:00. -/
def citaNueva : Cita := { citaBase with pk := none, hora := ⟨10, 0⟩ }

/-- Colliding unsaved candidate: the exact slot of `citaBase`. -/
def citaChoque : Cita := { citaBase with pk := none }

/-- Database after saving `citaNueva` into `worldBase`. -/
def worldC1saved : World :=
  { worldBase with citas := [citaBase, { citaNueva with pk := some 2 }] }

theorem cita_uniqueness_invariant_witness :
    (uqCitaOdoFechaHoraActiva worldC1saved ∧ uqCitaConsulFechaHoraActiva worldC1saved
      ∧ uqCitaPacienteFechaHoraActiva worldC1saved)
    ∧ isOkB (Cita.save worldBase citaChoque) = false :=
  ⟨cita_uniqueness_invariant.1 worldBase citaNueva worldC1saved
      (by decide) (by decide) (by decide) (by decide) (by decide) (by decide) (by rfl),
   cita_uniqueness_invariant.2 worldBase citaChoque (by decide) (by decide) (by decide)
      ⟨citaBase, by decide, by decide, by decide, Or.inl (by decide)⟩⟩

/-! ## C7: cancel is idempotent on cancelled, rejected on done/maintenance -/

/-- C7.  The `cancelar` action is a no-op success on an already-cancelled
appointment: it returns 200 with the unchanged appointment and leaves the
database (including the cancellation audit fields) untouched; on a `done`
(`realizada`) or `maintenance` appointment it returns the 400 rejection
and changes nothing — for every caller role and patient-mode flag. -/
theorem cancelar_idempotente_y_guardas :
    ∀ (w : World) (c : Cita) (userPid : Option Nat) (patientMode : Bool)
      (roleId : Option Nat) (now : Int),
      cancelar w { c with estado := Estado.cancelada } userPid patientMode roleId now
        = Except.ok (200, { c with estado := Estado.cancelada }, w)
      ∧ cancelar w { c with estado := Estado.realizada } userPid patientMode roleId now
        = Except.ok (400, { c with estado := Estado.realizada }, w)
      ∧ cancelar w { c with estado := Estado.mantenimiento } userPid patientMode roleId now
        = Except.ok (400, { c with estado := Estado.mantenimiento }, w) := by
  intro w c userPid patientMode roleId now
  refine ⟨rfl, rfl, rfl⟩

/-! ## C10: get_config returns the (instance, created) pair -/

/-- C10.  `Configuracion.get_config` hands back the `(instance, created)`
pair produced by `get_or_create` instead of the instance: every direct
policy-attribute read off its result raises (`configGetattrOpt = none`),
every `getattr(..., default)` read silently yields the hard-coded default
— and consequently the patient-mode confirm and both branches of
appointment creation, which read attributes directly, crash with an
`AttributeError`. -/
theorem get_config_devuelve_par :
    ∀ (w : World) (name : String) (d : Int),
      (∃ c created, Configuracion.get_config w = ConfigValue.tupla c created)
      ∧ configGetattrOpt (Configuracion.get_config w) name = none
      ∧ configGetattrDefault (Configuracion.get_config w) name d = d
      ∧ (∀ (citaObj : Cita) (now : Int),
          confirmar w { citaObj with estado := Estado.pendiente } true now
            = Except.error PyError.attributeError)
      ∧ (∀ (myPid : Option Nat) (vF : Fecha) (vH : Hora) (odo cons pacS : Nat) (now : Int),
          perform_create w false myPid vF vH odo cons pacS now
            = Except.error PyError.attributeError) := by
  intro w name d
  refine ⟨?_, configGetattrOpt_get_config w name, configGetattrDefault_get_config w name d,
    ?_, ?_⟩
  · cases h : w.configuracion with
    | none => exact ⟨defaultConfiguracion, true, by simp [Configuracion.get_config, h]⟩
    | some cfg => exact ⟨cfg, false, by simp [Configuracion.get_config, h]⟩
  · intro citaObj now
    unfold confirmar
    simp [configGetattrOpt_get_config]
  · intro myPid vF vH odo cons pacS now
    unfold perform_create
    simp [configGetattrOpt_get_config]

/-! ## C4: the confirm window for patients -/

/-- Policy row used in the C4 scenario (the defaults: confirm window
[12h, 24h], auto-confirm 24h). -/
def nowC4 : Int := absMinutes fechaLunes ⟨9, 0⟩ - 1080

/-- C4 (failing input).  With the default policy stored
(`horas_confirmar_desde = 24`, `horas_confirmar_hasta = 12`), a pending
appointment 18 hours before start — squarely inside the closed
confirmation window, which the spec says a patient confirm must accept —
makes the patient-mode `confirmar` raise an `AttributeError` instead,
because `config.horas_confirmar_desde` is read off the
`(instance, created)` tuple.  The appointment is not confirmed. -/
theorem confirmar_paciente_attribute_error :
    citaBase.estado = Estado.pendiente
    ∧ hoursUntil citaBase.fecha citaBase.hora nowC4 = 18
    ∧ worldBase.configuracion = some defaultConfiguracion
    ∧ defaultConfiguracion.horasConfirmarDesde = 24
    ∧ defaultConfiguracion.horasConfirmarHasta = 12
    ∧ confirmar worldBase citaBase true nowC4 = Except.error PyError.attributeError := by
  refine ⟨rfl, ?_, rfl, rfl, rfl, ?_⟩
  · unfold hoursUntil nowC4
    have h1 : absMinutes citaBase.fecha citaBase.hora
        - (absMinutes fechaLunes ⟨9, 0⟩ - 1080) = 1080 := by
      have he : citaBase.fecha = fechaLunes := rfl
      have he2 : citaBase.hora = ⟨9, 0⟩ := rfl
      rw [he, he2]
      omega
    rw [h1]
    norm_num
  · rfl

/-! ## C9: initial state of a created appointment -/

/-- Creation instant used in the C9 scenario: 33 hours before the
requested Monday 10:00 start, i.e. a gap above the 24-hour auto-confirm
default, so the spec expects the appointment to be created `pending`. -/
def nowC9 : Int := absMinutes fechaLunes ⟨10, 0⟩ - 1980

/-- C9 (failing input).  No invocation of `perform_create` — patient or
staff, any payload, any database — ever persists an appointment: every
path either fails a validation or reads `config.cooldown_dias` /
`config.horas_autoconfirmar` directly off the `get_config` tuple and
raises an `AttributeError`; in particular the staff creation 33 hours
ahead, which the spec says must yield a `pendiente` appointment, crashes. -/
theorem perform_create_nunca_crea :
    (∀ (w : World) (patientMode : Bool) (myPid : Option Nat) (vF : Fecha) (vH : Hora)
      (odo cons pacS : Nat) (now : Int),
      isOkB (perform_create w patientMode myPid vF vH odo cons pacS now) = false)
    ∧ perform_create worldBase false none fechaLunes ⟨10, 0⟩ 1 1 1 nowC9
        = Except.error PyError.attributeError := by
  constructor
  · intro w patientMode myPid vF vH odo cons pacS now
    unfold perform_create
    cases patientMode with
    | false => simp [configGetattrOpt_get_config, isOkB]
    | true =>
      cases myPid with
      | none => simp [isOkB]
      | some pid =>
        unfold perform_create_paciente_tail
        simp only [configGetattrOpt_get_config]
        repeat' split
        all_goals rfl
  · rfl

/-! ## C8: the patient reprogramming cap -/

/-- Policy row whose `max_reprogramaciones` is 0: the stored policy
forbids any patient reprogramming. -/
def configMaxRe0 : Configuracion := { defaultConfiguracion with maxReprogramaciones := 0 }

/-- Database of the C8 scenario: same fixtures as `worldBase` but the
stored policy caps reprogrammings at 0. -/
def worldC8 : World := { worldBase with configuracion := some configMaxRe0 }

/-- The following Monday, 2025-01-20 (`weekday = 0`). -/
def fechaLunes2 : Fecha := ⟨2025, 1, 20⟩

/-- Appointment produced by the C8 reschedule: counter bumped to 1, moved
to the following Monday 10:00 with the audit stamp. -/
def citaC8res : Cita :=
  { citaBase with
    reprogramaciones := 1
    fecha := fechaLunes2
    hora := ⟨10, 0⟩
    reprogramadaEn := some 0
    reprogramadaPorRol := some ROL_PACIENTE }

/-- Database after the C8 reschedule. -/
def worldC8res : World := { worldC8 with citas := [citaC8res] }

/-- C8 (failing input).  With the stored policy `max_reprogramaciones = 0`
a patient-initiated reschedule of a pending appointment still succeeds
(HTTP 200) and raises the counter to 1 — exceeding the policy maximum —
because the cap is read with `getattr(config, "max_reprogramaciones", 1)
or 1` off the `get_config` tuple, which always yields the hard-coded 1. -/
theorem reprogramar_excede_politica :
    worldC8.configuracion = some configMaxRe0
    ∧ configMaxRe0.maxReprogramaciones = 0
    ∧ citaBase.reprogramaciones = 0
    ∧ reprogramar worldC8 citaBase true (some 1) fechaLunes2 ⟨10, 0⟩ none
        (some ROL_PACIENTE) 0
        = Except.ok (200, citaC8res, worldC8res)
    ∧ (citaC8res.reprogramaciones : Int) > configMaxRe0.maxReprogramaciones := by
  refine ⟨rfl, rfl, rfl, ?_, by decide⟩
  rfl

/-! ## C2: availability is sorted, conflict-free and inside the schedule -/

/-- Occupied start times of the dentist on the date (non-cancelled rows). -/
def ocupadasOdoList (w : World) (f : Fecha) (oid : Nat) : List Nat :=
  (w.citas.filter (fun c =>
    c.fecha == f && c.idOdontologo == oid && c.estado != Estado.cancelada)).map
      (fun c => tToMinutes c.hora)

/-- Occupied start times of the optional room on the date. -/
def ocupadasConsList (w : World) (f : Fecha) (consParam : Option Nat) : List Nat :=
  match consParam with
  | some cid => (w.citas.filter (fun c =>
      c.fecha == f && c.idConsultorio == cid && c.estado != Estado.cancelada)).map
        (fun c => tToMinutes c.hora)
  | none => []

theorem disponibles_eq (w : World) (f : Fecha) (oid : Nat) (consParam : Option Nat)
    (hnb : fechaBloqueada w f oid = false) :
    (disponibilidad w f oid consParam).disponibles
      = (slotsHorariosParaFecha w f oid).filter (fun s =>
          !((ocupadasOdoList w f oid ++ ocupadasConsList w f consParam).contains s)) := by
  unfold disponibilidad ocupadasOdoList ocupadasConsList
  simp only [hnb, Bool.false_eq_true, if_false]

/-- Specification of the `disponibilidad` payload for a non-blocked date:
strictly ascending (hence deduplicated) availability, disjoint from every
non-cancelled appointment of the dentist (and of the supplied room), and
every slot a full hour inside a vigente window of the dentist for the
weekday, outside the 13:00/14:00 lunch hours. -/
def DispoSpec (w : World) (f : Fecha) (oid : Nat) (consParam : Option Nat) : Prop :=
  List.Pairwise (· < ·) (disponibilidad w f oid consParam).disponibles
  ∧ (∀ c ∈ w.citas, c.estado ≠ Estado.cancelada → c.fecha = f →
      (c.idOdontologo = oid →
        tToMinutes c.hora ∉ (disponibilidad w f oid consParam).disponibles)
      ∧ (∀ cid, consParam = some cid → c.idConsultorio = cid →
          tToMinutes c.hora ∉ (disponibilidad w f oid consParam).disponibles))
  ∧ (∀ s ∈ (disponibilidad w f oid consParam).disponibles,
      s / 60 ≠ 13 ∧ s / 60 ≠ 14
      ∧ ∃ h, h ∈ w.horarios ∧ h.idOdontologo = oid ∧ h.vigente = true
          ∧ h.diaSemana = weekday f
          ∧ tToMinutes h.horaInicio ≤ s ∧ s + 60 ≤ tToMinutes h.horaFin)

/-- C2.  On a date that is not blocked for the dentist, the availability
query satisfies `DispoSpec`: it is a strictly ascending deduplicated list
of start times, none of which is taken by a non-cancelled appointment of
the dentist (or of the supplied room) on that date, and each of which
fits as a full hour inside a vigente schedule window for the weekday with
the lunch hours excluded.  The function is a pure read of the database. -/
theorem disponibilidad_correcta :
    ∀ (w : World) (f : Fecha) (oid : Nat) (consParam : Option Nat),
      fechaBloqueada w f oid = false → DispoSpec w f oid consParam := by
  intro w f oid consParam hnb
  have heq := disponibles_eq w f oid consParam hnb
  refine ⟨?_, ?_, ?_⟩
  · rw [heq]
    exact List.Pairwise.filter _ (pairwise_sortedDedup _)
  · intro c hc hest hf
    have hkey : ∀ hocc : tToMinutes c.hora
        ∈ ocupadasOdoList w f oid ++ ocupadasConsList w f consParam,
        tToMinutes c.hora ∉ (disponibilidad w f oid consParam).disponibles := by
      intro hocc hmem
      rw [heq, List.mem_filter] at hmem
      obtain ⟨-, hnotin⟩ := hmem
      rw [Bool.not_eq_true'] at hnotin
      simp only [List.contains_eq_any_beq, List.any_eq_false, beq_iff_eq] at hnotin
      exact hnotin (tToMinutes c.hora) hocc rfl
    constructor
    · intro hodo
      apply hkey
      apply List.mem_append_left
      unfold ocupadasOdoList
      exact List.mem_map.mpr ⟨c, List.mem_filter.mpr ⟨hc, by
        simp [hf, hodo, bne_iff_ne.mpr hest]⟩, rfl⟩
    · intro cid hcons hcid
      apply hkey
      apply List.mem_append_right
      unfold ocupadasConsList
      rw [hcons]
      exact List.mem_map.mpr ⟨c, List.mem_filter.mpr ⟨hc, by
        simp [hf, hcid, bne_iff_ne.mpr hest]⟩, rfl⟩
  · intro s hs
    rw [heq, List.mem_filter] at hs
    obtain ⟨hbase, -⟩ := hs
    unfold slotsHorariosParaFecha at hbase
    rw [mem_sortedDedup, List.mem_flatten] at hbase
    obtain ⟨l, hl, hsl⟩ := hbase
    rw [List.mem_map] at hl
    obtain ⟨h, hh, rfl⟩ := hl
    rw [List.mem_filter] at hh
    obtain ⟨hhw, hpred⟩ := hh
    simp only [Bool.and_eq_true, beq_iff_eq] at hpred
    obtain ⟨⟨hoid, hvig⟩, hdia⟩ := hpred
    by_cases hfin : tToMinutes h.horaFin > tToMinutes h.horaInicio
    · rw [if_pos hfin] at hsl
      unfold buildSlotsFromInterval at hsl
      have hprops := buildSlotsGo_mem _ _ _ hsl
      exact ⟨hprops.2.2.1, hprops.2.2.2, h, hhw, hoid, hvig, hdia,
        hprops.1, hprops.2.1⟩
    · rw [if_neg hfin] at hsl
      simp at hsl

theorem disponibilidad_correcta_witness : DispoSpec worldBase fechaLunes 1 (some 1) :=
  disponibilidad_correcta worldBase fechaLunes 1 (some 1) (by rfl)

/-! ## C3: blocked dates - empty availability and the metadata flag -/

/-- Global block row for 2025-12-25 whose nullable `motivo` is NULL. -/
def bloqueoNavidad : BloqueoDia :=
  { idBloqueo := 1, idOdontologo := none, fecha := ⟨2025, 12, 25⟩,
    recurrenteAnual := false, motivo := none, grupo := 1 }

/-- Database with only the NULL-motivo global Christmas block. -/
def worldC3 : World := { worldBase with bloqueos := [bloqueoNavidad] }

/-- Global block row for 2025-12-25 with a text motivo. -/
def bloqueoNavidadM : BloqueoDia := { bloqueoNavidad with motivo := some "Feriado" }

/-- Database with the text-motivo global Christmas block. -/
def worldC3b : World := { worldBase with bloqueos := [bloqueoNavidadM] }

/-- C3 (counterexample).  2025-12-25 is covered by an applicable global
Block, and the availability query does return empty lists — but
`dia-metadata` reports `bloqueado = false`, because the block's nullable
`motivo` is NULL and `values_list("motivo", flat=True).first()` cannot
tell that row apart from no row at all. -/
theorem dia_metadata_bloqueado_falso :
    fechaBloqueada worldC3 ⟨2025, 12, 25⟩ 1 = true
    ∧ disponibilidad worldC3 ⟨2025, 12, 25⟩ 1 none
        = { ocupadasOdontologo := [], ocupadasConsultorio := [], ocupadas := [],
            disponibles := [] }
    ∧ (diaMetadata worldC3 ⟨2025, 12, 25⟩ 1 none).bloqueado = false := by
  refine ⟨rfl, rfl, rfl⟩

/-- C3 (amended).  For every date covered by an applicable Block (global
or scoped to the queried dentist, by direct date or annual month/day
match) the availability query returns empty lists outright; and the
day-metadata query reports `bloqueado = true` provided every matching
Block row carries a non-NULL `motivo` (a NULL-motivo row is reported as
not blocked). -/
theorem bloqueo_vacia_disponibilidad :
    ∀ (w : World) (f : Fecha) (oid : Nat) (consParam : Option Nat),
      fechaBloqueada w f oid = true →
      disponibilidad w f oid consParam
        = { ocupadasOdontologo := [], ocupadasConsultorio := [], ocupadas := [],
            disponibles := [] }
      ∧ ((∀ b ∈ w.bloqueos, bloqueoAplicaFecha b f = true → b.motivo ≠ none) →
          (diaMetadata w f oid consParam).bloqueado = true) := by
  intro w f oid consParam hb
  constructor
  · unfold disponibilidad
    rw [hb]
    simp
  · intro hmot
    unfold diaMetadata
    dsimp only
    unfold bloqueoDetalle
    dsimp only
    rw [fechaBloqueada, List.any_eq_true] at hb
    obtain ⟨b, hbw, hbsel⟩ := hb
    simp only [Bool.and_eq_true, Bool.or_eq_true, beq_iff_eq] at hbsel
    obtain ⟨haplica, hscope⟩ := hbsel
    cases hodo : (w.bloqueos.filter (fun x =>
        bloqueoAplicaFecha x f && x.idOdontologo == some oid)).head? with
    | some b0 =>
      have hb0mem := List.mem_of_mem_head? hodo
      rw [List.mem_filter] at hb0mem
      obtain ⟨hb0w, hb0pred⟩ := hb0mem
      simp only [Bool.and_eq_true] at hb0pred
      have hb0mot := hmot b0 hb0w hb0pred.1
      cases hm : b0.motivo with
      | none => exact absurd hm hb0mot
      | some m =>
        simp [hm]
    | none =>
      have hbglobal : b.idOdontologo = none := by
        rcases hscope with hg | ho
        · exact hg
        · exfalso
          have : b ∈ w.bloqueos.filter (fun x =>
              bloqueoAplicaFecha x f && x.idOdontologo == some oid) := by
            rw [List.mem_filter]
            exact ⟨hbw, by simp [haplica, ho]⟩
          rw [List.head?_eq_none_iff] at hodo
          rw [hodo] at this
          simp at this
      cases hglob : (w.bloqueos.filter (fun x =>
          bloqueoAplicaFecha x f && x.idOdontologo == none)).head? with
      | some b1 =>
        have hb1mem := List.mem_of_mem_head? hglob
        rw [List.mem_filter] at hb1mem
        obtain ⟨hb1w, hb1pred⟩ := hb1mem
        simp only [Bool.and_eq_true] at hb1pred
        have hb1mot := hmot b1 hb1w hb1pred.1
        cases hm : b1.motivo with
        | none => exact absurd hm hb1mot
        | some m =>
          simp [hm]
      | none =>
        exfalso
        have : b ∈ w.bloqueos.filter (fun x =>
            bloqueoAplicaFecha x f && x.idOdontologo == none) := by
          rw [List.mem_filter]
          exact ⟨hbw, by simp [haplica, hbglobal]⟩
        rw [List.head?_eq_none_iff] at hglob
        rw [hglob] at this
        simp at this

theorem bloqueo_vacia_disponibilidad_witness :
    disponibilidad worldC3b ⟨2025, 12, 25⟩ 1 none
      = { ocupadasOdontologo := [], ocupadasConsultorio := [], ocupadas := [],
          disponibles := [] }
    ∧ ((∀ b ∈ worldC3b.bloqueos, bloqueoAplicaFecha b ⟨2025, 12, 25⟩ = true →
          b.motivo ≠ none) →
        (diaMetadata worldC3b ⟨2025, 12, 25⟩ 1 none).bloqueado = true) :=
  bloqueo_vacia_disponibilidad worldC3b ⟨2025, 12, 25⟩ 1 none (by rfl)

/-! ## C5: what the bulk applies may and may not touch -/

/-- Future appointment already marked done (`realizada`) in room 1. -/
def citaRealizada : Cita := { citaBase with estado := Estado.realizada }

/-- Database holding only the future done appointment. -/
def worldC5 : World := { worldBase with citas := [citaRealizada] }

/-- Cutoff before the appointment (2025-01-01 00:00), so the row counts
as future. -/
def dtFromC5 : FechaHora := ⟨⟨2025, 1, 1⟩, 0⟩

/-- The done appointment after the room-scoped apply restamped it. -/
def citaC5after : Cita := stampMantenimiento 990 ROL_ADMIN_CLIN 77 citaRealizada

/-- Database after the room-scoped apply. -/
def worldC5after : World := { worldC5 with citas := [citaC5after] }

/-- C5 (counterexample).  The room-scoped bulk apply excludes only
cancelled rows, so a *future done* appointment of the room is selected
and modified: its state becomes `mantenimiento` and the audit fields are
restamped — contradicting the claim that no cancelled-or-done appointment
is ever modified by a bulk maintenance apply. -/
theorem apply_consultorio_modifica_realizada :
    citaRealizada.estado = Estado.realizada
    ∧ applyMantenimientoConsultorio worldC5 1 ROL_ADMIN_CLIN 77 990 dtFromC5
        = Except.ok (worldC5after, 1)
    ∧ citaC5after.estado = Estado.mantenimiento
    ∧ citaC5after ≠ citaRealizada := by
  refine ⟨rfl, rfl, rfl, by decide⟩

theorem save_preserva_otras (w : World) (c2 : Cita) (w1 : World) (c : Cita)
    (hs : Cita.save w c2 = Except.ok w1) (hmem : c ∈ w.citas) (hne : c2.pk ≠ c.pk) :
    c ∈ w1.citas := by
  unfold Cita.save at hs
  cases hclean : Cita.clean w c2 with
  | error e =>
    rw [hclean] at hs
    exact absurd hs (by simp)
  | ok u =>
    cases u
    rw [hclean] at hs
    cases hpk : c2.pk with
    | none =>
      rw [hpk] at hs
      simp only [Except.ok.injEq] at hs
      rw [← hs]
      exact List.mem_append_left _ hmem
    | some p =>
      rw [hpk] at hs
      by_cases hex : (w.citas.any (fun r => r.pk == some p)) = true
      · simp only [hex, if_true, Except.ok.injEq] at hs
        rw [← hs]
        unfold replaceByPk
        apply List.mem_map.mpr
        refine ⟨c, hmem, ?_⟩
        rw [if_neg]
        intro hcp
        exact hne (beq_iff_eq.mp hcp).symm
      · simp only [Bool.not_eq_true] at hex
        simp only [hex, Bool.false_eq_true, if_false, Except.ok.injEq] at hs
        rw [← hs]
        exact List.mem_append_left _ hmem

theorem saveLoop_preserva_no_seleccionadas (now : Int) (byRole batch : Nat) (c : Cita) :
    ∀ (sel : List Cita) (w w2 : World) (n : Nat),
      c ∈ w.citas → (∀ s ∈ sel, s.pk ≠ c.pk) →
      saveLoopMantenimiento now byRole batch w sel = Except.ok (w2, n) → c ∈ w2.citas := by
  intro sel
  induction sel with
  | nil =>
    intro w w2 n hmem _ hrun
    unfold saveLoopMantenimiento at hrun
    simp only [Except.ok.injEq, Prod.mk.injEq] at hrun
    rw [← hrun.1]
    exact hmem
  | cons s rest ih =>
    intro w w2 n hmem hpk hrun
    unfold saveLoopMantenimiento at hrun
    dsimp only at hrun
    cases hsave : Cita.save w (stampMantenimiento now byRole batch s) with
    | error e =>
      rw [hsave] at hrun
      exact absurd hrun (by simp)
    | ok w1 =>
      rw [hsave] at hrun
      dsimp only at hrun
      cases hrec : saveLoopMantenimiento now byRole batch w1 rest with
      | error e =>
        rw [hrec] at hrun
        exact absurd hrun (by simp)
      | ok pr =>
        rw [hrec] at hrun
        simp only [Except.ok.injEq, Prod.mk.injEq] at hrun
        have hc1 : c ∈ w1.citas := by
          apply save_preserva_otras w _ w1 c hsave hmem
          exact hpk s (List.mem_cons_self s rest)
        rw [← hrun.1]
        have hrest : ∀ x ∈ rest, x.pk ≠ c.pk := fun x hx =>
          hpk x (List.mem_cons_of_mem s hx)
        have := ih w1 pr.1 pr.2 hc1 hrest (by rw [hrec])
        exact this

/-- Distinct rows carry distinct primary keys (the AutoField is the
table's primary key). -/
def PksDistintos (w : World) : Prop := w.citas.Pairwise (fun a b => a.pk ≠ b.pk)

instance (w : World) : Decidable (PksDistintos w) := by
  unfold PksDistintos; exact inferInstance

theorem pk_ne_of_mem_of_ne {w : World} (hpks : PksDistintos w) {a b : Cita}
    (ha : a ∈ w.citas) (hb : b ∈ w.citas) (hne : a ≠ b) : a.pk ≠ b.pk := by
  have hsym : Symmetric (fun x y : Cita => x.pk ≠ y.pk) := fun x y hxy => Ne.symm hxy
  exact List.Pairwise.forall hsym hpks ha hb hne

/-- C5 (amended).  The Block-scoped and dentist-scoped bulk applies
select only future pending/confirmed appointments of their scope, so a
cancelled, done or maintenance row — or any row outside the scope or
before the cutoff — is returned unchanged; the room-scoped apply excludes
only cancelled rows, so for it only cancelled and out-of-scope rows are
guaranteed untouched (a future done row is modified, see the
counterexample); and all three reactivations change only rows currently
in `mantenimiento`. -/
theorem bulk_apply_solo_activas_frame :
    (∀ (w : World) (fi ff : Fecha) (byRole : Nat) (idOdo : Option Nat) (rec : Bool)
       (dtFrom : FechaHora) (batch : Nat) (now : Int) (c : Cita),
       c ∈ w.citas →
       (c.estado = Estado.cancelada ∨ c.estado = Estado.realizada
         ∨ c.estado = Estado.mantenimiento
         ∨ qsBaseBloqueoSel fi ff idOdo rec dtFrom c = false) →
       c ∈ (applyMantenimientoBloqueo w fi ff byRole idOdo rec dtFrom batch now).1.citas)
    ∧ (∀ (w : World) (idOdontologo byRole batch : Nat) (now : Int) (dtFrom : FechaHora)
       (w2 : World) (n : Nat) (c : Cita),
       PksDistintos w →
       applyMantenimientoOdontologo w idOdontologo byRole batch now dtFrom
         = Except.ok (w2, n) →
       c ∈ w.citas →
       (c.estado = Estado.cancelada ∨ c.estado = Estado.realizada
         ∨ c.estado = Estado.mantenimiento ∨ c.idOdontologo ≠ idOdontologo
         ∨ qFuturas dtFrom c = false) →
       c ∈ w2.citas)
    ∧ (∀ (w : World) (consultorioId byRole batch : Nat) (now : Int) (dtFrom : FechaHora)
       (w2 : World) (n : Nat) (c : Cita),
       PksDistintos w →
       applyMantenimientoConsultorio w consultorioId byRole batch now dtFrom
         = Except.ok (w2, n) →
       c ∈ w.citas →
       (c.estado = Estado.cancelada ∨ c.idConsultorio ≠ consultorioId
         ∨ qFuturas dtFrom c = false) →
       c ∈ w2.citas)
    ∧ (∀ (w : World) (fi ff : Fecha) (idOdo : Option Nat) (rec : Bool) (dtFrom : FechaHora)
       (c : Cita), c ∈ w.citas → c.estado ≠ Estado.mantenimiento →
       c ∈ (applyReactivacionBloqueo w fi ff idOdo rec dtFrom).1.citas)
    ∧ (∀ (w : World) (idOdontologo : Nat) (dtFrom : FechaHora) (c : Cita),
       c ∈ w.citas → c.estado ≠ Estado.mantenimiento →
       c ∈ (applyReactivacionOdontologo w idOdontologo dtFrom).1.citas)
    ∧ (∀ (w : World) (consultorioId : Nat) (dtFrom : FechaHora) (c : Cita),
       c ∈ w.citas → c.estado ≠ Estado.mantenimiento →
       c ∈ (applyReactivacionConsultorio w consultorioId dtFrom).1.citas) := by
  refine ⟨?_, ?_, ?_, ?_, ?_, ?_⟩
  · intro w fi ff byRole idOdo rec dtFrom batch now c hc hdisj
    unfold applyMantenimientoBloqueo
    dsimp only
    have hself : (qsBaseBloqueoSel fi ff idOdo rec dtFrom c
        && (c.estado == Estado.pendiente || c.estado == Estado.confirmada)) = false := by
      rcases hdisj with h | h | h | h
      · simp [h]
      · simp [h]
      · simp [h]
      · simp [h]
    apply List.mem_map.mpr
    exact ⟨c, hc, by simp only [hself, Bool.false_eq_true, if_false]⟩
  · intro w idOdontologo byRole batch now dtFrom w2 n c hpks happly hc hdisj
    unfold applyMantenimientoOdontologo at happly
    dsimp only at happly
    have hpredc : (c.idOdontologo == idOdontologo && qFuturas dtFrom c
        && (c.estado == Estado.pendiente || c.estado == Estado.confirmada)) = false := by
      rcases hdisj with h | h | h | h | h
      · simp [h]
      · simp [h]
      · simp [h]
      · simp [h]
      · simp [h]
    apply saveLoop_preserva_no_seleccionadas now byRole batch c _ w w2 n hc _ happly
    intro s hs
    rw [List.mem_filter] at hs
    obtain ⟨hsw, hspred⟩ := hs
    have hne : s ≠ c := by
      intro heq
      rw [heq] at hspred
      rw [hspred] at hpredc
      exact Bool.true_eq_false.mp hpredc
    exact pk_ne_of_mem_of_ne hpks hsw hc hne
  · intro w consultorioId byRole batch now dtFrom w2 n c hpks happly hc hdisj
    unfold applyMantenimientoConsultorio at happly
    dsimp only at happly
    have hpredc : (c.idConsultorio == consultorioId && qFuturas dtFrom c
        && c.estado != Estado.cancelada) = false := by
      rcases hdisj with h | h | h
      · simp [h]
      · simp [h]
      · simp [h]
    apply saveLoop_preserva_no_seleccionadas now byRole batch c _ w w2 n hc _ happly
    intro s hs
    rw [List.mem_filter] at hs
    obtain ⟨hsw, hspred⟩ := hs
    have hne : s ≠ c := by
      intro heq
      rw [heq] at hspred
      rw [hspred] at hpredc
      exact Bool.true_eq_false.mp hpredc
    exact pk_ne_of_mem_of_ne hpks hsw hc hne
  · intro w fi ff idOdo rec dtFrom c hc hest
    unfold applyReactivacionBloqueo
    dsimp only
    apply List.mem_map.mpr
    refine ⟨c, hc, ?_⟩
    have hsel : (qsBaseBloqueoSel fi ff idOdo rec dtFrom c
        && c.estado == Estado.mantenimiento) = false := by
      simp [beq_iff_eq, hest]
    simp only [hsel, Bool.false_eq_true, if_false]
  · intro w idOdontologo dtFrom c hc hest
    unfold applyReactivacionOdontologo
    dsimp only
    apply List.mem_map.mpr
    refine ⟨c, hc, ?_⟩
    have hsel : (c.idOdontologo == idOdontologo && c.estado == Estado.mantenimiento
        && qFuturas dtFrom c) = false := by
      simp [beq_iff_eq, hest]
    simp only [hsel, Bool.false_eq_true, if_false]
  · intro w consultorioId dtFrom c hc hest
    unfold applyReactivacionConsultorio
    dsimp only
    apply List.mem_map.mpr
    refine ⟨c, hc, ?_⟩
    have hsel : (c.idConsultorio == consultorioId && c.estado == Estado.mantenimiento
        && qFuturas dtFrom c) = false := by
      simp [beq_iff_eq, hest]
    simp only [hsel, Bool.false_eq_true, if_false]

/-- Future cancelled appointment used to exercise the frame theorem. -/
def citaCancelada : Cita := { citaBase with estado := Estado.cancelada }

/-- Database holding only the future cancelled appointment. -/
def worldC5cancel : World := { worldBase with citas := [citaCancelada] }

theorem bulk_apply_solo_activas_frame_witness :
    citaCancelada ∈ (applyMantenimientoBloqueo worldC5cancel fechaLunes fechaLunes
        ROL_ADMIN_CLIN none false dtFromC5 7 990).1.citas
    ∧ citaCancelada ∈ worldC5cancel.citas
    ∧ citaCancelada ∈ worldC5cancel.citas
    ∧ citaCancelada ∈ (applyReactivacionBloqueo worldC5cancel fechaLunes fechaLunes
        none false dtFromC5).1.citas
    ∧ citaCancelada ∈ (applyReactivacionOdontologo worldC5cancel 1 dtFromC5).1.citas
    ∧ citaCancelada ∈ (applyReactivacionConsultorio worldC5cancel 1 dtFromC5).1.citas :=
  ⟨bulk_apply_solo_activas_frame.1 worldC5cancel fechaLunes fechaLunes ROL_ADMIN_CLIN
      none false dtFromC5 7 990 citaCancelada (by decide) (Or.inl rfl),
   bulk_apply_solo_activas_frame.2.1 worldC5cancel 1 ROL_ADMIN_CLIN 7 990 dtFromC5
      worldC5cancel 0 citaCancelada (by decide) (by rfl) (by decide) (Or.inl rfl),
   bulk_apply_solo_activas_frame.2.2.1 worldC5cancel 1 ROL_ADMIN_CLIN 7 990 dtFromC5
      worldC5cancel 0 citaCancelada (by decide) (by rfl) (by decide) (Or.inl rfl),
   bulk_apply_solo_activas_frame.2.2.2.1 worldC5cancel fechaLunes fechaLunes none false
      dtFromC5 citaCancelada (by decide) (by decide),
   bulk_apply_solo_activas_frame.2.2.2.2.1 worldC5cancel 1 dtFromC5 citaCancelada
      (by decide) (by decide),
   bulk_apply_solo_activas_frame.2.2.2.2.2 worldC5cancel 1 dtFromC5 citaCancelada
      (by decide) (by decide)⟩

/-! ## C6: create-and-apply versus the batch id -/

/-- Database with no appointments at all. -/
def worldC6 : World := { worldBase with citas := [] }

/-- Database after creating the one-day global Christmas block group. -/
def worldC6after : World :=
  { worldC6 with bloqueos :=
      [{ idBloqueo := 1, idOdontologo := none, fecha := ⟨2025, 12, 25⟩,
         recurrenteAnual := false, motivo := some "Feriado", grupo := 5 }] }

/-- C6 (counterexample).  `create-and-apply` invoked by an admin with
`confirm = true` on a range whose preview finds zero affected
appointments returns only the group and the preview: `applyResult = none`
— no update is performed and no batch id is returned, although the claim
says a batch id is returned regardless of the preview being empty. -/
theorem create_and_apply_sin_batch :
    create_and_apply worldC6 true (some 1) none ⟨2025, 12, 25⟩ ⟨2025, 12, 25⟩ none
        "Feriado" false 5 88 dtFromC5 0
      = Except.ok (worldC6after,
          { group := 5, previewTotal := 0, applyResult := none }) := by
  rfl

/-- C6 (amended).  With `confirm = true`, `create-and-apply` performs the
update and returns the batch id only when the preview found at least one
affected appointment; with an empty preview it skips the apply and its
response carries no batch id.  The standalone
`applyMantenimientoBloqueo`, by contrast, always performs the (possibly
empty) update and returns the batch id together with the exact
preview count. -/
theorem create_and_apply_amended :
    (∀ (w : World) (roleId myOd : Option Nat) (fi ff : Fecha) (idOd : Option Nat)
       (motivo : String) (rec : Bool) (grupo batch : Nat) (dtFrom : FechaHora) (now : Int)
       (w2 : World) (resp : CreateApplyResponse),
       create_and_apply w true roleId myOd fi ff idOd motivo rec grupo batch dtFrom now
         = Except.ok (w2, resp) →
       (0 < resp.previewTotal →
          resp.applyResult
            = some { batchId := batch, totalMantenimiento := resp.previewTotal })
       ∧ (resp.previewTotal = 0 → resp.applyResult = none))
    ∧ (∀ (w : World) (fi ff : Fecha) (byRole : Nat) (idOdo : Option Nat) (rec : Bool)
       (dtFrom : FechaHora) (batch : Nat) (now : Int),
       (applyMantenimientoBloqueo w fi ff byRole idOdo rec dtFrom batch now).2
         = { batchId := batch,
             totalMantenimiento :=
               previewMantenimientoBloqueo w fi ff idOdo rec dtFrom }) := by
  constructor
  · intro w roleId myOd fi ff idOd motivo rec grupo batch dtFrom now w2 resp h
    unfold create_and_apply at h
    cases hcr : bloqueoGrupoCreate w roleId myOd fi ff idOd motivo rec grupo with
    | error e =>
      rw [hcr] at h
      exact absurd h (by simp)
    | ok pr =>
      obtain ⟨w1, g⟩ := pr
      rw [hcr] at h
      dsimp only at h
      by_cases hz : previewMantenimientoBloqueo w1 fi ff idOd rec dtFrom = 0
      · simp only [hz, Bool.not_true, Bool.false_or, beq_self_eq_true, if_true,
          Except.ok.injEq, Prod.mk.injEq] at h
        obtain ⟨-, hresp⟩ := h
        rw [← hresp]
        constructor
        · intro hlt
          simp [hz] at hlt
        · intro _
          rfl
      · have hcond : (!true || previewMantenimientoBloqueo w1 fi ff idOd rec dtFrom == 0)
            = false := by
          simp [hz]
        rw [hcond] at h
        simp only [Bool.false_eq_true, if_false, Except.ok.injEq, Prod.mk.injEq] at h
        obtain ⟨-, hresp⟩ := h
        rw [← hresp]
        constructor
        · intro _
          rfl
        · intro hzero
          exact absurd hzero hz
  · intro w fi ff byRole idOdo rec dtFrom batch now
    rfl

/-- Response of the exercised create-and-apply call: one affected
appointment, so the apply ran and returned batch id 55. -/
def respC6w : CreateApplyResponse :=
  { group := 9, previewTotal := 1,
    applyResult := some { batchId := 55, totalMantenimiento := 1 } }

/-- Database after that call: the block row created and the pending
appointment moved to maintenance with the batch stamp. -/
def worldC6w2 : World :=
  { worldBase with
    bloqueos := [{ idBloqueo := 1, idOdontologo := none, fecha := fechaLunes,
                   recurrenteAnual := false, motivo := some "m", grupo := 9 }]
    citas := [stampMantenimiento 0 1 55 citaBase] }

theorem create_and_apply_amended_witness :
    ((0 < respC6w.previewTotal →
        respC6w.applyResult = some { batchId := 55, totalMantenimiento := respC6w.previewTotal })
      ∧ (respC6w.previewTotal = 0 → respC6w.applyResult = none))
    ∧ (applyMantenimientoBloqueo worldBase fechaLunes fechaLunes 1 none false dtFromC5 55 0).2
        = { batchId := 55,
            totalMantenimiento :=
              previewMantenimientoBloqueo worldBase fechaLunes fechaLunes none false dtFromC5 } :=
  ⟨create_and_apply_amended.1 worldBase (some 1) none fechaLunes fechaLunes none "m" false
      9 55 dtFromC5 0 worldC6w2 respC6w (by rfl),
   create_and_apply_amended.2 worldBase fechaLunes fechaLunes 1 none false dtFromC5 55 0⟩
